import Mathlib

/-!
Verification of the incident-report analysis pipeline (ir-analysis).

This file gives a shallow embedding, in Lean 4, of the text-scoring engine of
the repository: the business-impact analyzer, the technical analyzer, the RCA
quality analyzer, the RCA content analyzer and the per-incident record
assembly of the main pipeline.  Strings are modelled as lists of characters;
Python regular-expression patterns are modelled by a small backtracking
matcher whose combinators mirror the pattern syntax construct by construct.
All definitions are computable so that concrete runs of the embedded code can
be evaluated inside proofs.
-/

namespace IrAnalysis

/-- Texts are lists of characters (Python str, ASCII fragment). -/
abbrev Str := List Char

/-- Convert a Lean string literal to the character-list representation. -/
def strL (s : String) : Str := s.toList

/-- ASCII lower-casing of one character, as Python str.lower does on ASCII. -/
def toLowerPy (c : Char) : Char :=
  if 'A' ≤ c ∧ c ≤ 'Z' then Char.ofNat (c.toNat + 32) else c

/-- Python str.lower on an ASCII text. -/
def lower_str (s : Str) : Str := s.map toLowerPy

/-- Python whitespace characters (the ASCII set matched by str.strip and by
the regex class backslash-s). -/
def isWsPy (c : Char) : Bool :=
  c = ' ' ∨ c = '\t' ∨ c = '\n' ∨ c = '\r' ∨ c = Char.ofNat 11 ∨ c = Char.ofNat 12

/-- ASCII decimal digit, the regex class backslash-d. -/
def isDigitPy (c : Char) : Bool := '0' ≤ c ∧ c ≤ '9'

/-- ASCII letter. -/
def isAlphaPy (c : Char) : Bool := ('a' ≤ c ∧ c ≤ 'z') ∨ ('A' ≤ c ∧ c ≤ 'Z')

/-- ASCII word character, the regex class backslash-w. -/
def isWordPy (c : Char) : Bool := isAlphaPy c ∨ isDigitPy c ∨ c = '_'

/-- Python str.strip (both ends). -/
def py_strip (s : Str) : Str :=
  ((s.dropWhile isWsPy).reverse.dropWhile isWsPy).reverse

/-- Python str.rstrip with a single given character. -/
def py_rstrip_char (ch : Char) (s : Str) : Str :=
  (s.reverse.dropWhile (fun c => c = ch)).reverse

/-- Helper for collapse_ws: the flag records whether the previous character
was whitespace (so that a whitespace run produces a single space). -/
def collapse_ws_aux : Bool → Str → Str
  | _, [] => []
  | prevWs, c :: t =>
    if isWsPy c then
      if prevWs then collapse_ws_aux true t else ' ' :: collapse_ws_aux true t
    else c :: collapse_ws_aux false t

/-- The substitution re.sub of one or more whitespace by a single space:
every maximal whitespace run becomes one space, other characters unchanged. -/
def collapse_ws (s : Str) : Str := collapse_ws_aux false s

/-- Python substring test (the operator in): does kw occur inside s. -/
def is_sub (kw : Str) : Str → Bool
  | [] => kw.isEmpty
  | c :: t => kw.isPrefixOf (c :: t) || is_sub kw t

/-- Fuelled helper for count_sub; the fuel bounds the number of scan steps,
and is always supplied as the length of the scanned text, which suffices
because every step consumes at least one character. -/
def count_sub_aux (kw : Str) : Nat → Str → Nat
  | 0, _ => 0
  | _ + 1, [] => 0
  | f + 1, c :: t =>
    if kw.isPrefixOf (c :: t) ∧ 0 < kw.length then
      1 + count_sub_aux kw f ((c :: t).drop kw.length)
    else
      count_sub_aux kw f t

/-- Python str.count for a non-empty needle: number of non-overlapping
occurrences scanning from the left. -/
def count_sub (kw : Str) (s : Str) : Nat := count_sub_aux kw s.length s

/-- Numeric value of a digit string (int of a matched digit group). -/
def nat_of_digits (s : Str) : Nat :=
  s.foldl (fun a c => a * 10 + (c.toNat - 48)) 0

/-- Decimal rendering of a natural number, as Python str formatting of int. -/
def nat_to_str (n : Nat) : Str := (Nat.repr n).toList

/-- Python sep.join of a list of texts. -/
def join_sep (sep : Str) : List Str → Str
  | [] => []
  | [x] => x
  | x :: xs => x ++ sep ++ join_sep sep xs

/-- Python str.split with no argument: whitespace-run splitting, empty pieces
discarded.  The fuel is the length of the text. -/
def ws_words_aux : Nat → Str → List Str
  | 0, _ => []
  | _ + 1, [] => []
  | f + 1, s =>
    let s1 := s.dropWhile isWsPy
    match s1 with
    | [] => []
    | _ =>
      let w := s1.takeWhile (fun c => ¬ isWsPy c)
      w :: ws_words_aux f (s1.drop w.length)

/-- Python str.split with no argument. -/
def ws_words (s : Str) : List Str := ws_words_aux s.length s

/-- Splitting on every maximal run of separator-class characters, the
behaviour of re.split on a pattern that is a character class followed by a
plus.  Like Python, leading and trailing empty pieces are kept. -/
def split_runs_aux (p : Char → Bool) : Nat → Str → List Str
  | 0, s => [s]
  | f + 1, s =>
    let w := s.takeWhile (fun c => ¬ p c)
    match s.drop w.length with
    | [] => [w]
    | _ :: t => w :: split_runs_aux p f (t.dropWhile p)

/-- The split re.split on a class-plus pattern (for example on runs of
sentence punctuation). -/
def split_runs (p : Char → Bool) (s : Str) : List Str :=
  split_runs_aux p s.length s

/-- Splitting on every single separator-class character, the behaviour of
re.split on a bare character class (adjacent separators produce empty
pieces). -/
def split_every (p : Char → Bool) : Str → List Str
  | [] => [[]]
  | c :: t =>
    if p c then [] :: split_every p t
    else
      match split_every p t with
      | [] => [[c]]
      | w :: ws => (c :: w) :: ws

/-- Python str.startswith for one character. -/
def starts_with_char (ch : Char) : Str → Bool
  | [] => false
  | c :: _ => c = ch

/-- Python str.endswith for one character. -/
def ends_with_char (ch : Char) : Str → Bool
  | [] => false
  | [c] => c = ch
  | _ :: t => ends_with_char ch t

/-!
A small backtracking regular-expression engine.

A matcher consumes a prefix of an input suffix and yields the list of its
possible outcomes, ordered by the preference of a backtracking engine (as in
the Python re module): the head of the list is the preferred outcome.  Each
outcome carries the list of captured groups produced so far (in order of the
opening parentheses; none of the embedded patterns nests capturing groups)
together with the remaining input.  An unmatched optional group captures
none, as match.group returns None in Python.
-/

/-- One matcher outcome: captured groups so far, and the remaining suffix. -/
abbrev MRes := List (List (Option Str) × Str)

/-- A matcher on character lists. -/
abbrev Matcher := Str → MRes

/-- The empty pattern. -/
def mEps : Matcher := fun s => [([], s)]

/-- Sequencing of two patterns. -/
def mSeq (a b : Matcher) : Matcher := fun s =>
  (a s).flatMap (fun gr =>
    (b gr.2).map (fun gr2 => (gr.1 ++ gr2.1, gr2.2)))

/-- Sequencing of a list of patterns. -/
def mSeqs (ms : List Matcher) : Matcher := ms.foldr mSeq mEps

/-- Alternation, tried in the given order (the regex bar). -/
def mAlt (ms : List Matcher) : Matcher := fun s => ms.flatMap (fun m => m s)

/-- A case-sensitive literal. -/
def mLit (lit : Str) : Matcher := fun s =>
  if lit.isPrefixOf s then [([], s.drop lit.length)] else []

/-- Case-insensitive prefix test; the pattern side is supplied already in
lower case. -/
def ci_pref : Str → Str → Bool
  | [], _ => true
  | _ :: _, [] => false
  | a :: as, b :: bs => (toLowerPy b = a) && ci_pref as bs

/-- A case-insensitive literal (the pattern under the inline flag i); the
argument must be written in lower case. -/
def mLitCI (lit : Str) : Matcher := fun s =>
  if ci_pref lit s then [([], s.drop lit.length)] else []

/-- A single character from a class. -/
def mCls (p : Char → Bool) : Matcher := fun s =>
  match s with
  | [] => []
  | c :: r => if p c then [([], r)] else []

/-- The greedy question mark on a sub-pattern. -/
def mOpt (m : Matcher) : Matcher := fun s => m s ++ [([], s)]

/-- A capturing group around a sub-pattern: records the consumed span. -/
def mCap (m : Matcher) : Matcher := fun s =>
  (m s).map (fun gr => (gr.1 ++ [some (s.take (s.length - gr.2.length))], gr.2))

/-- An optional capturing group, as in a parenthesised group followed by a
question mark: when the group is skipped it captures none. -/
def mOptCap (m : Matcher) : Matcher := fun s =>
  (mCap m) s ++ [([none], s)]

/-- Length of the maximal prefix of characters from a class. -/
def run_len (p : Char → Bool) (s : Str) : Nat := (s.takeWhile p).length

/-- Greedy plus on a character class: candidates consume the longest run
first, down to a single character. -/
def mPlusCls (p : Char → Bool) : Matcher := fun s =>
  let n := run_len p s
  (List.range n).map (fun i => ([], s.drop (n - i)))

/-- Greedy star on a character class: like the plus, with the empty
consumption as the last candidate. -/
def mStarCls (p : Char → Bool) : Matcher := fun s =>
  let n := run_len p s
  (List.range (n + 1)).map (fun i => ([], s.drop (n - i)))

/-- Lazy plus on a character class (the plus followed by a question mark):
candidates consume one character first, then ever longer runs. -/
def mPlusClsLazy (p : Char → Bool) : Matcher := fun s =>
  let n := run_len p s
  (List.range n).map (fun i => ([], s.drop (i + 1)))

/-- Lazy star on a character class. -/
def mStarClsLazy (p : Char → Bool) : Matcher := fun s =>
  let n := run_len p s
  (List.range (n + 1)).map (fun i => ([], s.drop i))

/-- Exactly k characters from a class (the braced counted repetition). -/
def mRepCls (p : Char → Bool) : Nat → Matcher
  | 0 => mEps
  | k + 1 => mSeq (mCls p) (mRepCls p k)

/-- One or two characters from a class (the braced repetition 1 to 2),
greedy: two characters preferred. -/
def mRep12 (p : Char → Bool) : Matcher :=
  mAlt [mSeq (mCls p) (mCls p), mCls p]

/-- Fuelled helper for the greedy star over an arbitrary sub-pattern.
Iterations that consume nothing are dropped (all starred sub-patterns of the
embedded code consume at least one character on success). -/
def mStarG_aux (m : Matcher) : Nat → Matcher
  | 0 => fun s => [([], s)]
  | f + 1 => fun s =>
    (((m s).filter (fun gr => gr.2.length < s.length)).flatMap
      (fun gr => (mStarG_aux m f gr.2).map (fun gr2 => (gr.1 ++ gr2.1, gr2.2))))
    ++ [([], s)]

/-- Greedy star over an arbitrary sub-pattern; the input length bounds the
number of iterations. -/
def mStarG (m : Matcher) : Matcher := fun s => mStarG_aux m s.length s

/-- The zero-width lookahead group. -/
def mLook (m : Matcher) : Matcher := fun s =>
  if (m s).isEmpty then [] else [([], s)]

/-- End of input (the dollar anchor inside a lookahead alternative of the
multiline patterns, together with an explicit newline alternative). -/
def mEnd : Matcher := fun s => if s = [] then [([], s)] else []

/-- The Python dollar anchor outside multiline mode: end of input, or just
before a final newline. -/
def mEndPy : Matcher := fun s => if s = [] ∨ s = ['\n'] then [([], s)] else []

/-- Any character (the dot under the DOTALL flag). -/
def anyCh : Char → Bool := fun _ => true

/-- Any character except a newline (the plain dot). -/
def dotCh : Char → Bool := fun c => c ≠ '\n'

/-- A literal followed by an optional letter s, the common pattern of a word
with the plural s and a question mark; case-insensitive. -/
def mWordOptS (w : String) : Matcher :=
  mSeq (mLitCI (strL w)) (mOpt (mLitCI (strL "s")))

/-- Try the matcher at the start of the given suffix; on success return the
matched span (group zero), the captured groups and the rest. -/
def pyMatchAt (m : Matcher) (s : Str) : Option (Str × List (Option Str) × Str) :=
  match m s with
  | gr :: _ => some (s.take (s.length - gr.2.length), gr.1, gr.2)
  | [] => none

/-- The search re.search: try every start position from the left, return the
first match (its matched span and its captured groups). -/
def pySearch (m : Matcher) : Str → Option (Str × List (Option Str))
  | [] => (pyMatchAt m []).map (fun x => (x.1, x.2.1))
  | c :: t =>
    match pyMatchAt m (c :: t) with
    | some x => some (x.1, x.2.1)
    | none => pySearch m t

/-- Boolean form of the search. -/
def pySearchB (m : Matcher) (s : Str) : Bool := (pySearch m s).isSome

/-- Fuelled helper for finditer and findall: scan left to right, collect
non-overlapping matches, resuming after the end of each match (after one
character for a zero-width match, as Python does). -/
def pyFindIter_aux (m : Matcher) : Nat → Str → List (Str × List (Option Str))
  | 0, _ => []
  | _ + 1, [] =>
    match pyMatchAt m [] with
    | some x => [(x.1, x.2.1)]
    | none => []
  | f + 1, c :: t =>
    match pyMatchAt m (c :: t) with
    | some x =>
      if x.2.2.length < t.length + 1 then
        (x.1, x.2.1) :: pyFindIter_aux m f x.2.2
      else
        (x.1, x.2.1) :: pyFindIter_aux m f t
    | none => pyFindIter_aux m f t

/-- The iterator re.finditer as a list of (matched span, groups). -/
def pyFindIter (m : Matcher) (s : Str) : List (Str × List (Option Str)) :=
  pyFindIter_aux m (s.length + 1) s

/-- The number of matches that re.findall returns. -/
def pyFindAllCount (m : Matcher) (s : Str) : Nat := (pyFindIter m s).length

/-!
The file business_impact_analyzer.py: BusinessImpactAnalyzer.

The analyzer is stateless, so its methods become plain functions.  Exceptions
cannot arise in the pure embedding, hence analyze_business_impact is the
normal path and create_fallback_analysis is the separately-stated degraded
result of the except branch.
-/

namespace Business

/-- The dataclass BusinessImpactAnalysis. -/
structure BusinessImpactAnalysis where
  impact_score : Nat
  customer_count_affected : Str
  revenue_impact_est : Str
  service_downtime_minutes : Nat
  severity_justification : Str
deriving DecidableEq

/-- Revenue impact estimation keywords (high_revenue_keywords). -/
def high_revenue_keywords : List Str :=
  [strL "payment", strL "billing", strL "checkout", strL "subscription",
   strL "revenue", strL "transaction", strL "purchase", strL "order",
   strL "financial"]

/-- Critical service keywords (critical_service_keywords). -/
def critical_service_keywords : List Str :=
  [strL "login", strL "authentication", strL "auth", strL "signup",
   strL "registration", strL "core", strL "main", strL "primary",
   strL "essential", strL "critical"]

/-- The regex digits, optionally followed by comma-separated digit groups,
capturing the whole number. -/
def mNumGrp : Matcher :=
  mCap (mSeq (mPlusCls isDigitPy)
    (mStarG (mSeq (mLit (strL ",")) (mPlusCls isDigitPy))))

/-- Customer impact pattern 1: a number followed by users, members or
customers. -/
def pat_cust_users : Matcher :=
  mSeqs [mNumGrp, mPlusCls isWsPy,
    mAlt [mWordOptS "user", mWordOptS "member", mWordOptS "customer"]]

/-- Customer impact pattern 2: a percentage of users or members; the percent
sign is inside the capture. -/
def pat_cust_percent : Matcher :=
  mSeqs [mCap (mSeqs [mPlusCls isDigitPy,
            mOpt (mSeq (mLit (strL ".")) (mPlusCls isDigitPy)),
            mLit (strL "%")]),
    mPlusCls isWsPy, mLitCI (strL "of"), mPlusCls isWsPy,
    mAlt [mWordOptS "user", mWordOptS "member"]]

/-- Customer impact pattern 3: all or entire, optional word user, base; no
capturing group. -/
def pat_cust_base : Matcher :=
  mSeqs [mAlt [mLitCI (strL "all"), mLitCI (strL "entire")],
    mPlusCls isWsPy,
    mOpt (mSeq (mLitCI (strL "user")) (mPlusCls isWsPy)),
    mLitCI (strL "base")]

/-- Customer impact pattern 4: a number followed by accounts or profiles. -/
def pat_cust_accounts : Matcher :=
  mSeqs [mNumGrp, mPlusCls isWsPy,
    mAlt [mWordOptS "account", mWordOptS "profile"]]

/-- The customer_impact_patterns list, in order. -/
def customer_impact_patterns : List Matcher :=
  [pat_cust_users, pat_cust_percent, pat_cust_base, pat_cust_accounts]

/-- The pattern loop of extract_customer_impact: first match wins; a match
whose span contains all or entire yields the all-users phrase, otherwise the
first captured group is formatted. -/
def cust_loop (combined : Str) : List Matcher → Option Str
  | [] => none
  | p :: ps =>
    match pySearch p combined with
    | some (g0, gs) =>
      if is_sub (strL "all") g0 ∨ is_sub (strL "entire") g0 then
        some (strL "All users affected")
      else
        match gs with
        | some number :: _ =>
          if is_sub (strL "%") number then some (number ++ strL " of user base")
          else some (number ++ strL " users")
        | _ => cust_loop combined ps
    | none => cust_loop combined ps

/-- The method extract_customer_impact. -/
def extract_customer_impact (content summary : Str) : Str :=
  let combined := lower_str (content ++ strL " " ++ summary)
  match cust_loop combined customer_impact_patterns with
  | some r => r
  | none =>
    if [strL "all users", strL "entire user base", strL "everyone"].any
        (fun w => is_sub w combined) then
      strL "All users affected"
    else if [strL "many users", strL "multiple users", strL "several"].any
        (fun w => is_sub w combined) then
      strL "Multiple users affected (unquantified)"
    else if [strL "some users", strL "few users", strL "limited"].any
        (fun w => is_sub w combined) then
      strL "Limited users affected"
    else
      strL "User impact not specified"

/-- The regex alternative mins or minutes, with optional plural s. -/
def mMins : Matcher := mAlt [mWordOptS "min", mWordOptS "minute"]

/-- Downtime pattern: hours then optional minutes (digits, hours, optional
digits, min). -/
def pat_time_hm : Matcher :=
  mSeqs [mCap (mPlusCls isDigitPy), mStarCls isWsPy,
    mWordOptS "hour", mStarCls isWsPy,
    mOptCap (mPlusCls isDigitPy), mStarCls isWsPy,
    mLitCI (strL "min")]

/-- Downtime pattern: fractional hours. -/
def pat_time_h : Matcher :=
  mSeqs [mCap (mSeqs [mPlusCls isDigitPy,
      mOpt (mSeq (mLit (strL ".")) (mPlusCls isDigitPy))]),
    mStarCls isWsPy, mWordOptS "hour"]

/-- Downtime pattern: plain minutes. -/
def pat_time_m : Matcher :=
  mSeqs [mCap (mPlusCls isDigitPy), mStarCls isWsPy, mMins]

/-- Downtime pattern: seconds. -/
def pat_time_s : Matcher :=
  mSeqs [mCap (mPlusCls isDigitPy), mStarCls isWsPy, mWordOptS "second"]

/-- The value int of float of a digit string with an optional decimal part,
multiplied by sixty and truncated, as the hour-to-minute conversion does.
The conversion is modelled over the rationals; Python evaluates it in binary
floating point, which can differ by one minute on some fractional inputs,
and no claim depends on those inputs. -/
def hours_times_60 (h : Str) : Nat :=
  match split_every (fun c => c = '.') h with
  | [ip] => nat_of_digits ip * 60
  | [ip, fp] => (nat_of_digits (ip ++ fp) * 60) / 10 ^ fp.length
  | _ => 0

/-- The method extract_downtime: the four time patterns in order, each by a
first-match scan, then the three duration-phrase patterns, else zero. -/
def extract_downtime (content : Str) : Nat :=
  let cl := lower_str content
  match pySearch pat_time_hm cl with
  | some (_, some h :: om :: _) =>
    nat_of_digits h * 60 + (match om with | some mm => nat_of_digits mm | none => 0)
  | _ =>
  match pySearch pat_time_h cl with
  | some (_, some h :: _) => hours_times_60 h
  | _ =>
  match pySearch pat_time_m cl with
  | some (_, some mv :: _) => nat_of_digits mv
  | _ =>
  match pySearch pat_time_s cl with
  | some (_, some sv :: _) => max 1 (nat_of_digits sv / 60)
  | _ =>
  let dur1 := mSeqs [mLitCI (strL "lasted"), mPlusCls isWsPy,
    mOpt (mSeq (mLitCI (strL "for")) (mPlusCls isWsPy)),
    mCap (mPlusCls isDigitPy), mStarCls isWsPy, mMins]
  let dur2 := mSeqs [mLitCI (strL "down"), mPlusCls isWsPy,
    mLitCI (strL "for"), mPlusCls isWsPy,
    mCap (mPlusCls isDigitPy), mStarCls isWsPy, mMins]
  let dur3 := mSeqs [mLitCI (strL "outage"), mPlusCls isWsPy,
    mOpt (mSeq (mLitCI (strL "of")) (mPlusCls isWsPy)),
    mCap (mPlusCls isDigitPy), mStarCls isWsPy, mMins]
  match pySearch dur1 cl with
  | some (_, some v :: _) => nat_of_digits v
  | _ =>
  match pySearch dur2 cl with
  | some (_, some v :: _) => nat_of_digits v
  | _ =>
  match pySearch dur3 cl with
  | some (_, some v :: _) => nat_of_digits v
  | _ => 0

/-- The method estimate_revenue_impact: a decision table on priority, the
two keyword families and the downtime. -/
def estimate_revenue_impact (content summary priority : Str)
    (downtime_minutes : Nat) : Str :=
  let combined := lower_str (content ++ strL " " ++ summary)
  let is_revenue_critical := high_revenue_keywords.any (fun k => is_sub k combined)
  let is_critical_service := critical_service_keywords.any (fun k => is_sub k combined)
  if priority = strL "P1" then
    if is_revenue_critical ∧ downtime_minutes > 30 then
      strL "High: $50K+ potential revenue impact"
    else if is_critical_service ∧ downtime_minutes > 15 then
      strL "Medium: $10K-50K potential impact"
    else
      strL "Medium: $5K-25K potential impact"
  else if priority = strL "P2" then
    if is_revenue_critical then strL "Medium: $5K-25K potential impact"
    else strL "Low: $1K-10K potential impact"
  else if priority = strL "P3" then
    if is_revenue_critical then strL "Low: $1K-5K potential impact"
    else strL "Minimal: <$1K potential impact"
  else
    strL "Minimal: <$500 potential impact"

/-- The method calculate_impact_score: base one, priority weight, customer
weight, downtime weight, service criticality, capped at ten. -/
def calculate_impact_score (priority customer_count : Str)
    (downtime_minutes : Nat) (content summary : Str) : Nat :=
  let p : Nat :=
    if priority = strL "P1" then 4
    else if priority = strL "P2" then 3
    else if priority = strL "P3" then 2
    else if priority = strL "P4" then 1
    else 1
  let cc := lower_str customer_count
  let c : Nat :=
    if is_sub (strL "all users") cc then 3
    else if is_sub (strL "%") cc ∨ is_sub (strL "thousand") cc ∨
        is_sub (strL "k users") cc then 2
    else if is_sub (strL "multiple") cc ∨ is_sub (strL "several") cc then 1
    else 0
  let d : Nat :=
    if downtime_minutes > 120 then 2
    else if downtime_minutes > 30 then 1
    else 0
  let combined := lower_str (content ++ strL " " ++ summary)
  let r : Nat := if high_revenue_keywords.any (fun k => is_sub k combined) then 1 else 0
  min (1 + p + c + d + r) 10

/-- The method generate_severity_justification. -/
def generate_severity_justification (impact_score : Nat) (priority : Str)
    (customer_count : Str) (downtime_minutes : Nat) : Str :=
  let r1 : List Str :=
    if impact_score ≥ 8 then [strL "Critical business impact"]
    else if impact_score ≥ 6 then [strL "Significant business impact"]
    else if impact_score ≥ 4 then [strL "Moderate business impact"]
    else [strL "Limited business impact"]
  let r2 : List Str :=
    if priority = strL "P1" ∨ priority = strL "P2" then
      [priority ++ strL " incident with high urgency"]
    else []
  let r3 : List Str :=
    if is_sub (strL "all users") (lower_str customer_count) then
      [strL "Complete service disruption"]
    else if is_sub (strL "%") customer_count ∨
        is_sub (strL "thousand") customer_count ∨
        is_sub (strL "k") customer_count then
      [strL "Large user base affected"]
    else []
  let r4 : List Str :=
    if downtime_minutes > 60 then
      [strL "Extended downtime (" ++ nat_to_str downtime_minutes ++ strL " minutes)"]
    else if downtime_minutes > 0 then
      [strL "Service interruption (" ++ nat_to_str downtime_minutes ++ strL " minutes)"]
    else []
  join_sep (strL "; ") (r1 ++ r2 ++ r3 ++ r4)

/-- The method analyze_business_impact: the normal, exception-free path. -/
def analyze_business_impact (content _ticket_key priority summary _pods : Str) :
    BusinessImpactAnalysis :=
  let customer_count := extract_customer_impact content summary
  let downtime_minutes := extract_downtime content
  let revenue_impact := estimate_revenue_impact content summary priority downtime_minutes
  let impact_score := calculate_impact_score priority customer_count downtime_minutes content summary
  let justification := generate_severity_justification impact_score priority customer_count downtime_minutes
  { impact_score := impact_score,
    customer_count_affected := customer_count,
    revenue_impact_est := revenue_impact,
    service_downtime_minutes := downtime_minutes,
    severity_justification := justification }

/-- The method create_fallback_analysis, the result of the except branch. -/
def create_fallback_analysis (_ticket_key error_message : Str) : BusinessImpactAnalysis :=
  { impact_score := 1,
    customer_count_affected := strL "Analysis failed",
    revenue_impact_est := strL "Unable to estimate",
    service_downtime_minutes := 0,
    severity_justification :=
      strL "Business impact analysis failed: " ++ error_message }

end Business

/-!
The file technical_analyzer.py: TechnicalAnalyzer.
-/

namespace Technical

/-- The enum RootCauseCategory. -/
inductive RootCauseCategory where
  | CODE_BUG
  | CONFIGURATION
  | INFRASTRUCTURE
  | DEPLOYMENT
  | DEPENDENCY_FAILURE
  | CAPACITY
  | PROCESS_FAILURE
  | MONITORING_GAP
  | UNKNOWN
deriving DecidableEq

/-- The value string of each RootCauseCategory member. -/
def category_value : RootCauseCategory → Str
  | .CODE_BUG => strL "Code Bug"
  | .CONFIGURATION => strL "Configuration Error"
  | .INFRASTRUCTURE => strL "Infrastructure Failure"
  | .DEPLOYMENT => strL "Deployment Issue"
  | .DEPENDENCY_FAILURE => strL "External Dependency"
  | .CAPACITY => strL "Capacity/Performance"
  | .PROCESS_FAILURE => strL "Process/Human Error"
  | .MONITORING_GAP => strL "Monitoring/Alerting Gap"
  | .UNKNOWN => strL "Unknown/Not Classified"

/-- The enum TechnicalDebtLevel. -/
inductive TechnicalDebtLevel where
  | HIGH
  | MEDIUM
  | LOW
  | NONE
deriving DecidableEq

/-- The value string of each TechnicalDebtLevel member. -/
def debt_value : TechnicalDebtLevel → Str
  | .HIGH => strL "High - Major refactoring needed"
  | .MEDIUM => strL "Medium - Some improvements required"
  | .LOW => strL "Low - Minor cleanup needed"
  | .NONE => strL "None - Well-architected solution"

/-- The dataclass TechnicalAnalysis. -/
structure TechnicalAnalysis where
  root_cause_category : Str
  detection_time_minutes : Nat
  resolution_time_minutes : Nat
  technical_debt_level : Str
  automation_score : Nat
deriving DecidableEq

/-- The iteration order of the dict cause_patterns (insertion order). -/
def category_list : List RootCauseCategory :=
  [.CODE_BUG, .CONFIGURATION, .INFRASTRUCTURE, .DEPLOYMENT,
   .DEPENDENCY_FAILURE, .CAPACITY, .PROCESS_FAILURE, .MONITORING_GAP]

/-- The keyword list of each category in cause_patterns. -/
def cause_patterns : RootCauseCategory → List Str
  | .CODE_BUG =>
    [strL "bug", strL "error", strL "exception", strL "null pointer",
     strL "index out of bounds", strL "race condition", strL "memory leak",
     strL "logic error", strL "off by one"]
  | .CONFIGURATION =>
    [strL "config", strL "setting", strL "parameter",
     strL "environment variable", strL "property", strL "misconfigured",
     strL "wrong setting", strL "configuration error"]
  | .INFRASTRUCTURE =>
    [strL "server", strL "hardware", strL "network", strL "database",
     strL "disk space", strL "memory", strL "cpu", strL "load balancer",
     strL "dns", strL "ssl", strL "certificate", strL "aws", strL "cloud"]
  | .DEPLOYMENT =>
    [strL "deploy", strL "release", strL "rollback", strL "version",
     strL "build", strL "pipeline", strL "ci/cd", strL "migration",
     strL "update", strL "upgrade"]
  | .DEPENDENCY_FAILURE =>
    [strL "third party", strL "external", strL "vendor", strL "api",
     strL "service", strL "upstream", strL "downstream", strL "integration",
     strL "webhook", strL "partner"]
  | .CAPACITY =>
    [strL "capacity", strL "performance", strL "slow", strL "timeout",
     strL "overload", strL "scaling", strL "traffic", strL "load",
     strL "bottleneck", strL "latency", strL "throughput"]
  | .PROCESS_FAILURE =>
    [strL "human error", strL "manual", strL "process", strL "procedure",
     strL "forgot", strL "missed", strL "training", strL "communication",
     strL "handoff"]
  | .MONITORING_GAP =>
    [strL "monitoring", strL "alert", strL "detection", strL "observability",
     strL "logging", strL "metric", strL "dashboard", strL "notification",
     strL "no alert"]
  | .UNKNOWN => []

/-- The per-category score of classify_root_cause: occurrences of every
keyword counted, each keyword contributing at most three. -/
def category_score (content_lower : Str) (cat : RootCauseCategory) : Nat :=
  (cause_patterns cat).foldl
    (fun score kw =>
      let occurrences := count_sub kw content_lower
      if occurrences > 0 then score + min occurrences 3 else score)
    0

/-- The built-in max with a key function keeps the first item whose key is
maximal: a later item replaces the current best only when strictly
greater. -/
def py_max_by_snd (x : RootCauseCategory × Nat) (xs : List (RootCauseCategory × Nat)) :
    RootCauseCategory × Nat :=
  xs.foldl (fun best y => if y.2 > best.2 then y else best) x

/-- The method classify_root_cause. -/
def classify_root_cause (content : Str) : RootCauseCategory :=
  let content_lower := lower_str content
  let category_scores := category_list.map (fun c => (c, category_score content_lower c))
  match category_scores with
  | [] => .UNKNOWN
  | x :: xs =>
    let best := py_max_by_snd x xs
    if best.2 > 0 then best.1 else .UNKNOWN

/-- The detection- and resolution-time patterns share this suffix: captured
digits, optional whitespace, a minute unit. -/
def mCapMins : Matcher :=
  mSeqs [mCap (mPlusCls isDigitPy), mStarCls isWsPy, Business.mMins]

/-- A word with an optional -ed suffix followed by whitespace and an
optional word after with whitespace, the common head of the time patterns. -/
def mVerbAfter (stem : String) : Matcher :=
  mSeqs [mLitCI (strL stem), mOpt (mLitCI (strL "d")), mPlusCls isWsPy,
    mOpt (mSeq (mLitCI (strL "after")) (mPlusCls isWsPy))]

/-- The minute-unit detection patterns, in order. -/
def detection_patterns : List Matcher :=
  [mSeq (mVerbAfter "detecte") mCapMins,
   mSeq (mVerbAfter "notice") mCapMins,
   mSeq (mVerbAfter "discovere") mCapMins,
   mSeqs [mLitCI (strL "alert"), mOpt (mLitCI (strL "ed")), mPlusCls isWsPy,
     mOpt (mSeq (mLitCI (strL "after")) (mPlusCls isWsPy)), mCapMins],
   mSeqs [mLitCI (strL "time"), mPlusCls isWsPy, mLitCI (strL "to"),
     mPlusCls isWsPy, mLitCI (strL "detect"), mOpt (mLitCI (strL "ion")),
     mOpt (mLit (strL ":")), mPlusCls isWsPy, mCapMins],
   mSeqs [mLitCI (strL "mtt"), mOpt (mLitCI (strL "r")), mStarCls isWsPy,
     mOpt (mAlt [mLit (strL "-"), mLit (strL ":")]), mStarCls isWsPy, mCapMins]]

/-- A captured fractional-hour group followed by the hour unit. -/
def mCapHours : Matcher :=
  mSeqs [mCap (mSeqs [mPlusCls isDigitPy,
      mOpt (mSeq (mLit (strL ".")) (mPlusCls isDigitPy))]),
    mStarCls isWsPy, mWordOptS "hour"]

/-- The hour-unit detection patterns, in order. -/
def detection_hour_patterns : List Matcher :=
  [mSeq (mVerbAfter "detecte") mCapHours,
   mSeqs [mLitCI (strL "time"), mPlusCls isWsPy, mLitCI (strL "to"),
     mPlusCls isWsPy, mLitCI (strL "detect"), mOpt (mLitCI (strL "ion")),
     mOpt (mLit (strL ":")), mPlusCls isWsPy, mCapHours]]

/-- First pattern of a list that matches, returning its first captured
group interpreted as a number. -/
def first_cap_nat (ps : List Matcher) (cl : Str) : Option Nat :=
  match ps with
  | [] => none
  | p :: rest =>
    match pySearch p cl with
    | some (_, some v :: _) => some (nat_of_digits v)
    | _ => first_cap_nat rest cl

/-- First hour pattern of a list that matches, returning its first captured
group converted to minutes. -/
def first_cap_hours (ps : List Matcher) (cl : Str) : Option Nat :=
  match ps with
  | [] => none
  | p :: rest =>
    match pySearch p cl with
    | some (_, some v :: _) => some (Business.hours_times_60 v)
    | _ => first_cap_hours rest cl

/-- The method extract_detection_time. -/
def extract_detection_time (content : Str) : Nat :=
  let cl := lower_str content
  match first_cap_nat detection_patterns cl with
  | some v => v
  | none =>
    match first_cap_hours detection_hour_patterns cl with
    | some v => v
    | none => 0

/-- The minute-unit resolution patterns, in order. -/
def resolution_patterns : List Matcher :=
  [mSeq (mVerbAfter "resolve") mCapMins,
   mSeq (mVerbAfter "fixe") mCapMins,
   mSeqs [mLitCI (strL "time"), mPlusCls isWsPy, mLitCI (strL "to"),
     mPlusCls isWsPy, mLitCI (strL "fix"), mOpt (mLit (strL ":")),
     mPlusCls isWsPy, mCapMins],
   mSeqs [mLitCI (strL "time"), mPlusCls isWsPy, mLitCI (strL "to"),
     mPlusCls isWsPy, mLitCI (strL "resolv"),
     mAlt [mLitCI (strL "e"), mLitCI (strL "ution")],
     mOpt (mLit (strL ":")), mPlusCls isWsPy, mCapMins],
   mSeqs [mLitCI (strL "took"), mPlusCls isWsPy, mCapMins,
     mPlusCls isWsPy, mLitCI (strL "to"), mPlusCls isWsPy,
     mAlt [mLitCI (strL "fix"), mLitCI (strL "resolve")]],
   mSeqs [mLitCI (strL "resolution"), mPlusCls isWsPy, mLitCI (strL "time"),
     mOpt (mLit (strL ":")), mPlusCls isWsPy, mCapMins]]

/-- The hour-unit resolution patterns, in order. -/
def resolution_hour_patterns : List Matcher :=
  [mSeq (mVerbAfter "resolve") mCapHours,
   mSeqs [mLitCI (strL "took"), mPlusCls isWsPy, mCapHours,
     mPlusCls isWsPy, mLitCI (strL "to"), mPlusCls isWsPy,
     mAlt [mLitCI (strL "fix"), mLitCI (strL "resolve")]],
   mSeqs [mLitCI (strL "time"), mPlusCls isWsPy, mLitCI (strL "to"),
     mPlusCls isWsPy, mLitCI (strL "resolv"),
     mAlt [mLitCI (strL "e"), mLitCI (strL "ution")],
     mOpt (mLit (strL ":")), mPlusCls isWsPy, mCapHours]]

/-- The method extract_resolution_time. -/
def extract_resolution_time (content : Str) : Nat :=
  let cl := lower_str content
  match first_cap_nat resolution_patterns cl with
  | some v => v
  | none =>
    match first_cap_hours resolution_hour_patterns cl with
    | some v => v
    | none => 0

/-- The weighted technical-debt indicators (tech_debt_indicators). -/
def tech_debt_indicators : List (Str × Nat) :=
  [(strL "legacy", 2), (strL "technical debt", 3), (strL "refactor", 2),
   (strL "architectural", 3), (strL "workaround", 2), (strL "hack", 3),
   (strL "quick fix", 1), (strL "temporary", 1), (strL "cleanup", 1)]

/-- The architectural-concern terms of assess_technical_debt. -/
def architectural_terms : List Str :=
  [strL "architecture", strL "design flaw", strL "structural",
   strL "foundational", strL "system design", strL "architectural debt"]

/-- The method assess_technical_debt. -/
def assess_technical_debt (content : Str) : TechnicalDebtLevel :=
  let cl := lower_str content
  let base := tech_debt_indicators.foldl
    (fun acc iw => acc + count_sub iw.1 cl * iw.2) 0
  let debt_score := architectural_terms.foldl
    (fun acc term => if is_sub term cl then acc + 3 else acc) base
  if debt_score ≥ 8 then .HIGH
  else if debt_score ≥ 4 then .MEDIUM
  else if debt_score ≥ 1 then .LOW
  else .NONE

/-- The weighted automation indicators (automation_indicators). -/
def automation_indicators : List (Str × Nat) :=
  [(strL "runbook", 1), (strL "manual process", 2), (strL "human intervention", 2),
   (strL "could be automated", 3), (strL "should automate", 3),
   (strL "repetitive", 2), (strL "toil", 3), (strL "script", 1),
   (strL "automation", 1)]

/-- The method calculate_automation_score. -/
def calculate_automation_score (content : Str) : Nat :=
  let cl := lower_str content
  let s0 := automation_indicators.foldl
    (fun acc iw => if is_sub iw.1 cl then acc + iw.2 else acc) 0
  let s1 := if is_sub (strL "manual") cl ∧ is_sub (strL "process") cl then s0 + 2 else s0
  let s2 := if is_sub (strL "human") cl ∧
      (is_sub (strL "error") cl ∨ is_sub (strL "intervention") cl) then s1 + 2 else s1
  let s3 := if [strL "runbook", strL "playbook", strL "procedure"].any
      (fun t => is_sub t cl) then s2 + 1 else s2
  let s4 := if [strL "repetitive", strL "recurring", strL "pattern"].any
      (fun t => is_sub t cl) then s3 + 1 else s3
  let s5 := if is_sub (strL "prevent") cl ∧ is_sub (strL "automat") cl then s4 + 2 else s4
  min s5 5

/-- The method analyze_technical_aspects: the normal, exception-free path. -/
def analyze_technical_aspects (content _ticket_key _created_date : Str) :
    TechnicalAnalysis :=
  { root_cause_category := category_value (classify_root_cause content),
    detection_time_minutes := extract_detection_time content,
    resolution_time_minutes := extract_resolution_time content,
    technical_debt_level := debt_value (assess_technical_debt content),
    automation_score := calculate_automation_score content }

/-- The method create_fallback_analysis, the result of the except branch. -/
def tech_fallback_analysis : TechnicalAnalysis :=
  { root_cause_category := category_value .UNKNOWN,
    detection_time_minutes := 0,
    resolution_time_minutes := 0,
    technical_debt_level := debt_value .NONE,
    automation_score := 0 }

end Technical

/-!
The file rca_quality_analyzer.py: RCAQualityAnalyzer.

Each dimension assessor in the source returns a pair of a score and a
feedback string (plus, in the surrounding driver, strengths and gaps lists);
the claims concern only the scores, the per-dimension maxima, the total and
the grade, so the assessors are embedded as their score components and the
QualityDimension record keeps the name, the maximum and the score.  The
feedback, strengths and gaps strings do not feed back into any score.
-/

namespace Quality

/-- The enum QualityGrade. -/
inductive QualityGrade where
  | A
  | B
  | C
  | D
  | F
deriving DecidableEq

/-- The value string of each QualityGrade member. -/
def grade_value : QualityGrade → Str
  | .A => strL "A"
  | .B => strL "B"
  | .C => strL "C"
  | .D => strL "D"
  | .F => strL "F"

/-- The dataclass QualityDimension (score-relevant fields). -/
structure QualityDimension where
  name : Str
  max_points : Nat
  score : Nat
deriving DecidableEq

/-- The dataclass RCAQualityAssessment (score-relevant fields). -/
structure RCAQualityAssessment where
  ticket_key : Str
  total_score : Nat
  grade : QualityGrade
  dimensions : List QualityDimension
  assessment_confidence : Str
deriving DecidableEq

/-- Timestamp pattern 1: an ISO date, whitespace and a clock time. -/
def pat_ts_iso : Matcher :=
  mSeqs [mRepCls isDigitPy 4, mLit (strL "-"), mRepCls isDigitPy 2,
    mLit (strL "-"), mRepCls isDigitPy 2, mPlusCls isWsPy,
    mRep12 isDigitPy, mLit (strL ":"), mRepCls isDigitPy 2]

/-- Timestamp pattern 2: a clock time, whitespace and a zone or meridiem
marker (case sensitive, as in the source). -/
def pat_ts_zone : Matcher :=
  mSeqs [mRep12 isDigitPy, mLit (strL ":"), mRepCls isDigitPy 2,
    mPlusCls isWsPy,
    mAlt [mLit (strL "AM"), mLit (strL "PM"), mLit (strL "PST"),
      mLit (strL "EST"), mLit (strL "UTC")]]

/-- Timestamp pattern 3: a slash date, whitespace and a clock time. -/
def pat_ts_slash : Matcher :=
  mSeqs [mRep12 isDigitPy, mLit (strL "/"), mRep12 isDigitPy,
    mLit (strL "/"), mRepCls isDigitPy 4, mPlusCls isWsPy,
    mRep12 isDigitPy, mLit (strL ":"), mRepCls isDigitPy 2]

/-- The timestamp count of assess_timeline_detection: the findall counts of
the three timestamp patterns, summed. -/
def timestamp_count (content : Str) : Nat :=
  pyFindAllCount pat_ts_iso content + pyFindAllCount pat_ts_zone content +
    pyFindAllCount pat_ts_slash content

/-- The detection keywords of assess_timeline_detection. -/
def detection_keywords : List Str :=
  [strL "alert", strL "monitor", strL "detect", strL "notice",
   strL "discover", strL "pingdom", strL "datadog", strL "alarm"]

/-- The method assess_timeline_detection (score component, 15 points max). -/
def assess_timeline_detection (content : Str) : Nat :=
  let cl := lower_str content
  let s_timeline :=
    if is_sub (strL "timeline") cl then
      let tc := timestamp_count content
      4 + (if tc ≥ 5 then 6 else if tc ≥ 2 then 3 else 0)
    else 0
  let s_detect := if detection_keywords.any (fun k => is_sub k cl) then 3 else 0
  let s_response :=
    if [strL "time to", strL "response time", strL "detection time",
        strL "resolution time"].any (fun k => is_sub k cl) then 2 else 0
  min (s_timeline + s_detect + s_response) 15

/-- User impact pattern 1 of assess_impact_assessment: a number and a user
noun. -/
def pat_ui_number : Matcher :=
  mSeqs [mPlusCls isDigitPy,
    mStarG (mSeq (mLit (strL ",")) (mPlusCls isDigitPy)), mPlusCls isWsPy,
    mAlt [mWordOptS "user", mWordOptS "member", mWordOptS "customer"]]

/-- User impact pattern 2: a percentage of users or members. -/
def pat_ui_percent : Matcher :=
  mSeqs [mPlusCls isDigitPy,
    mOpt (mSeq (mLit (strL ".")) (mPlusCls isDigitPy)), mLit (strL "%"),
    mPlusCls isWsPy, mLitCI (strL "of"), mPlusCls isWsPy,
    mAlt [mWordOptS "user", mWordOptS "member"]]

/-- User impact pattern 3: the quantifiers all, some or many before a user
noun. -/
def pat_ui_quant : Matcher :=
  mSeqs [mAlt [mLitCI (strL "all"), mLitCI (strL "some"), mLitCI (strL "many")],
    mPlusCls isWsPy, mAlt [mWordOptS "user", mWordOptS "member"]]

/-- The business keywords of assess_impact_assessment. -/
def business_keywords : List Str :=
  [strL "business", strL "revenue", strL "sla", strL "availability",
   strL "downtime", strL "cost"]

/-- Duration pattern 1 of assess_impact_assessment. -/
def pat_dur_units : Matcher :=
  mSeqs [mPlusCls isDigitPy, mPlusCls isWsPy,
    mAlt [mWordOptS "minute", mWordOptS "hour", mWordOptS "min", mWordOptS "hr"]]

/-- Duration pattern 2: a from-to clock range with a lazy gap. -/
def pat_dur_range : Matcher :=
  mSeqs [mLitCI (strL "from"), mPlusCls isWsPy, mPlusCls isDigitPy,
    mLit (strL ":"), mPlusCls isDigitPy, mStarClsLazy dotCh,
    mLitCI (strL "to"), mPlusCls isWsPy, mPlusCls isDigitPy,
    mLit (strL ":"), mPlusCls isDigitPy]

/-- Duration pattern 3: lasted, optionally for, then digits. -/
def pat_dur_lasted : Matcher :=
  mSeqs [mLitCI (strL "lasted"), mPlusCls isWsPy,
    mOpt (mSeq (mLitCI (strL "for")) (mPlusCls isWsPy)), mPlusCls isDigitPy]

/-- The method assess_impact_assessment (score component, 15 points max). -/
def assess_impact_assessment (content : Str) : Nat :=
  let cl := lower_str content
  let s :=
    if is_sub (strL "impact") cl then
      let user_found := pySearchB pat_ui_number cl ∨ pySearchB pat_ui_percent cl ∨
        pySearchB pat_ui_quant cl
      let s1 := 3 + (if user_found then 5 else 0)
      let s2 := s1 + (if business_keywords.any (fun k => is_sub k cl) then 4 else 0)
      s2 + (if pySearchB pat_dur_units cl ∨ pySearchB pat_dur_range cl ∨
          pySearchB pat_dur_lasted cl then 3 else 0)
    else 0
  min s 15

/-- The section names of the root-cause-analysis section test. -/
def rca_sections : List Str :=
  [strL "root cause", strL "why did this happen", strL "5 whys",
   strL "cause analysis"]

/-- Does the content contain a root-cause-analysis section. -/
def has_rca_section (content : Str) : Bool :=
  rca_sections.any (fun sec => is_sub sec (lower_str content))

/-- The methodology list of assess_root_cause_analysis, in loop order. -/
def methodologies : List Str :=
  [strL "5 whys", strL "why", strL "fishbone", strL "fault tree",
   strL "contributing factor"]

/-- The methodology loop of assess_root_cause_analysis: the first
methodology found in the text decides the contribution, eight points when it
is the five-whys phrase or the text has at least three occurrences of why,
otherwise four points; no methodology found contributes nothing. -/
def methodology_loop (cl : Str) : List Str → Nat
  | [] => 0
  | m :: ms =>
    if is_sub m cl then
      if m = strL "5 whys" ∨ count_sub (strL "why") cl ≥ 3 then 8 else 4
    else methodology_loop cl ms

/-- The structured-methodology contribution of the root-cause-analysis
dimension. -/
def methodology_points (cl : Str) : Nat := methodology_loop cl methodologies

/-- The factor indicators of assess_root_cause_analysis. -/
def factor_indicators : List Str :=
  [strL "immediate cause", strL "contributing", strL "underlying",
   strL "secondary", strL "primary"]

/-- The technical keywords of assess_root_cause_analysis. -/
def rca_technical_keywords : List Str :=
  [strL "configuration", strL "deployment", strL "code", strL "database",
   strL "server", strL "api", strL "network", strL "timeout", strL "error",
   strL "exception", strL "log", strL "monitoring"]

/-- The blame indicators of assess_root_cause_analysis. -/
def blame_indicators : List Str :=
  [strL "human error", strL "forgot", strL "mistake", strL "careless",
   strL "should have"]

/-- The systems indicators of assess_root_cause_analysis. -/
def systems_indicators : List Str :=
  [strL "process", strL "system", strL "automation", strL "procedure",
   strL "design"]

/-- The method assess_root_cause_analysis (score component, 25 points max,
the most critical dimension). -/
def assess_root_cause_analysis (content : Str) : Nat :=
  let cl := lower_str content
  let s :=
    if has_rca_section content then
      let s1 := 5 + methodology_points cl
      let multiple_factors := (factor_indicators.filter (fun i => is_sub i cl)).length
      let s2 := s1 + (if multiple_factors ≥ 3 then 6
        else if multiple_factors ≥ 1 then 3 else 0)
      let technical_depth := (rca_technical_keywords.filter (fun k => is_sub k cl)).length
      let s3 := s2 + (if technical_depth ≥ 5 then 4
        else if technical_depth ≥ 2 then 2 else 0)
      let blame_count := (blame_indicators.filter (fun i => is_sub i cl)).length
      let systems_count := (systems_indicators.filter (fun i => is_sub i cl)).length
      s3 + (if systems_count > blame_count ∧ systems_count ≥ 2 then 2 else 0)
    else 0
  min s 25

/-- The section names of assess_communication_clarity. -/
def comm_sections : List Str :=
  [strL "summary", strL "timeline", strL "impact", strL "root cause",
   strL "action", strL "lesson"]

/-- The method assess_communication_clarity (score component, 10 points
max).  The readability test compares the long-sentence count against a
fifth of the sentence count; Python evaluates the fraction in binary
floating point, modelled here over the integers, which agrees except
possibly at float-rounding boundaries, on which no claim depends. -/
def assess_communication_clarity (content : Str) : Nat :=
  let cl := lower_str content
  let sections_found := (comm_sections.filter (fun sec => is_sub sec cl)).length
  let s1 := if sections_found ≥ 5 then 4 else if sections_found ≥ 3 then 2 else 0
  let s2 := s1 + (if is_sub (strL "summary") cl then 3 else 0)
  let sentences := split_runs (fun c => c = '.' ∨ c = '!' ∨ c = '?') content
  let long_sentences := sentences.filter (fun s => (ws_words s).length > 30)
  let s3 := s2 + (if 5 * long_sentences.length < sentences.length then 2 else 0)
  let s4 := s3 + (if 1000 ≤ content.length ∧ content.length ≤ 8000 then 1 else 0)
  min s4 10

/-- The action-section names of assess_action_items_prevention. -/
def action_sections : List Str :=
  [strL "action item", strL "next step", strL "remediation", strL "fix",
   strL "follow up", strL "todo"]

/-- Action pattern 1: a modal verb, whitespace, a word character run. -/
def pat_act_verb : Matcher :=
  mSeqs [mAlt [mLitCI (strL "will"), mLitCI (strL "should"),
      mLitCI (strL "must"),
      mSeqs [mLitCI (strL "need"), mPlusCls isWsPy, mLitCI (strL "to")]],
    mPlusCls isWsPy, mPlusCls isWordPy]

/-- Action pattern 2: the word by followed by an ISO date. -/
def pat_act_deadline : Matcher :=
  mSeqs [mLitCI (strL "by"), mPlusCls isWsPy, mRepCls isDigitPy 4,
    mLit (strL "-"), mRepCls isDigitPy 2, mLit (strL "-"), mRepCls isDigitPy 2]

/-- Action pattern 3: ownership markers. -/
def pat_act_owner : Matcher :=
  mAlt [mLitCI (strL "assigned to"), mLitCI (strL "owner:"),
    mLitCI (strL "responsible:")]

/-- The prevention keywords of assess_action_items_prevention. -/
def prevention_keywords : List Str :=
  [strL "prevent", strL "avoid", strL "monitor", strL "alert",
   strL "automation", strL "process", strL "procedure", strL "documentation",
   strL "training", strL "review"]

/-- The priority keywords of assess_action_items_prevention. -/
def priority_keywords : List Str :=
  [strL "priority", strL "critical", strL "high", strL "medium", strL "low",
   strL "risk", strL "important"]

/-- The timeline keywords of assess_action_items_prevention. -/
def timeline_keywords : List Str :=
  [strL "deadline", strL "by", strL "within", strL "week", strL "month",
   strL "sprint"]

/-- The method assess_action_items_prevention (score component, 20 points
max). -/
def assess_action_items_prevention (content : Str) : Nat :=
  let cl := lower_str content
  let s :=
    if action_sections.any (fun sec => is_sub sec cl) then
      let actionable_count := pyFindAllCount pat_act_verb cl +
        pyFindAllCount pat_act_deadline cl + pyFindAllCount pat_act_owner cl
      let s1 := 4 + (if actionable_count ≥ 5 then 6
        else if actionable_count ≥ 2 then 3 else 0)
      let prevention_count := (prevention_keywords.filter (fun k => is_sub k cl)).length
      let s2 := s1 + (if prevention_count ≥ 4 then 6
        else if prevention_count ≥ 2 then 3 else 0)
      let s3 := s2 + (if priority_keywords.any (fun k => is_sub k cl) then 2 else 0)
      s3 + (if timeline_keywords.any (fun k => is_sub k cl) then 2 else 0)
    else 0
  min s 20

/-- The required sections of assess_process_adherence. -/
def required_sections : List Str :=
  [strL "summary", strL "timeline", strL "impact", strL "cause", strL "action"]

/-- The severity keywords of assess_process_adherence. -/
def severity_keywords : List Str :=
  [strL "severity", strL "priority", strL "p1", strL "p2", strL "p3",
   strL "p4", strL "critical", strL "major", strL "minor"]

/-- The completeness indicators of assess_process_adherence. -/
def completeness_indicators : List Str :=
  [strL "author", strL "date", strL "reviewed", strL "approved"]

/-- The method assess_process_adherence (score component, 10 points max). -/
def assess_process_adherence (content : Str) : Nat :=
  let cl := lower_str content
  let sections_present := (required_sections.filter (fun sec => is_sub sec cl)).length
  let s1 := min (sections_present * 2) 8
  let s2 := s1 + (if severity_keywords.any (fun k => is_sub k cl) then 1 else 0)
  let completeness_count := (completeness_indicators.filter (fun i => is_sub i cl)).length
  let s3 := s2 + (if completeness_count ≥ 2 then 1 else 0)
  min s3 10

/-- The method assess_learning_knowledge_sharing (score component, 5 points
max). -/
def assess_learning_knowledge_sharing (content : Str) : Nat :=
  let cl := lower_str content
  let s1 := if [strL "lesson", strL "learn", strL "takeaway", strL "insight"].any
      (fun sec => is_sub sec cl) then 2 else 0
  let s2 := s1 + (if [strL "team", strL "organization", strL "similar",
      strL "pattern", strL "trend", strL "future"].any
      (fun k => is_sub k cl) then 2 else 0)
  let s3 := s2 + (if [strL "document", strL "share", strL "communicate",
      strL "training", strL "wiki", strL "runbook"].any
      (fun k => is_sub k cl) then 1 else 0)
  min s3 5

/-- The method calculate_grade: the grade boundaries 90, 80, 70, 60, 0 in
dict insertion order, first threshold met wins. -/
def calculate_grade (total_score : Nat) : QualityGrade :=
  if total_score ≥ 90 then .A
  else if total_score ≥ 80 then .B
  else if total_score ≥ 70 then .C
  else if total_score ≥ 60 then .D
  else .F

/-- The dimension list of perform_expert_llm_analysis and
process_expert_analysis, in dict insertion order, with the title-cased
names. -/
def quality_dimensions (content : Str) : List QualityDimension :=
  [⟨strL "Timeline Detection", 15, assess_timeline_detection content⟩,
   ⟨strL "Impact Assessment", 15, assess_impact_assessment content⟩,
   ⟨strL "Root Cause Analysis", 25, assess_root_cause_analysis content⟩,
   ⟨strL "Communication Clarity", 10, assess_communication_clarity content⟩,
   ⟨strL "Action Items Prevention", 20, assess_action_items_prevention content⟩,
   ⟨strL "Process Adherence", 10, assess_process_adherence content⟩,
   ⟨strL "Learning Knowledge Sharing", 5, assess_learning_knowledge_sharing content⟩]

/-- The method assess_confidence. -/
def assess_confidence (dims : List QualityDimension) (total_score : Nat) : Str :=
  let content_indicators := (dims.filter (fun d => d.score > 0)).length
  if content_indicators ≥ 6 ∧ total_score > 40 then strL "High"
  else if content_indicators ≥ 4 ∧ total_score > 20 then strL "Medium"
  else strL "Low"

/-- The methods analyze_rca_quality and process_expert_analysis: the normal,
exception-free path; the total accumulates the dimension scores. -/
def analyze_rca_quality (content ticket_key : Str) : RCAQualityAssessment :=
  let dims := quality_dimensions content
  let total_score := (dims.map (fun d => d.score)).sum
  { ticket_key := ticket_key,
    total_score := total_score,
    grade := calculate_grade total_score,
    dimensions := dims,
    assessment_confidence := assess_confidence dims total_score }

/-- The method create_fallback_assessment, the result of the except branch:
one degraded dimension, zero total, grade F, low confidence. -/
def create_fallback_assessment (ticket_key _error_message : Str) :
    RCAQualityAssessment :=
  { ticket_key := ticket_key,
    total_score := 0,
    grade := .F,
    dimensions := [⟨strL "Analysis Failed", 100, 0⟩],
    assessment_confidence := strL "Low" }

end Quality

/-!
The file rca_analyzer.py: RCAAnalyzer.

The analyzer tries an LLM-styled extraction path first; in the source that
path only fails when writing a temporary file fails, so the pure embedding
follows the success path (simulate_sequential_analysis with the three
llm-prefixed extractors, then validate_analysis_result).  The pattern-based
fallback extractors of the except branches are unreachable in the pure
model and are not needed by any claim.
-/

namespace Rca

/-- The dataclass RCAAnalysis. -/
structure RCAAnalysis where
  incident_summary : Str
  users_impacted : Str
  root_causes : List Str
  analysis_quality : Str
  raw_content_length : Nat
  error_message : Option Str
deriving DecidableEq

/-- A colon or whitespace, the bracket class of colon and backslash-s. -/
def colonWs (c : Char) : Bool := c = ':' ∨ isWsPy c

/-- A period or semicolon. -/
def dotSemi (c : Char) : Bool := c = '.' ∨ c = ';'

/-- Section-header pattern of assess_content_quality: a line start, a
letter, more letters, a colon; the inline flag i makes both letter classes
case-blind.  The caller prepends a newline sentinel so that the
start-or-newline group is the newline literal. -/
def pat_section_header : Matcher :=
  mSeqs [mLit (strL "\n"), mCls isAlphaPy, mPlusCls isAlphaPy, mLit (strL ":")]

/-- List-item pattern of assess_content_quality: a line start, optional
whitespace, a bullet, dash, star or digit. -/
def pat_list_item : Matcher :=
  mSeqs [mLit (strL "\n"), mStarCls isWsPy,
    mCls (fun c => c = '•' ∨ c = '-' ∨ c = '*' ∨ isDigitPy c)]

/-- The method assess_content_quality: quality thresholds on length and a
section count. -/
def assess_content_quality (content : Str) : Str :=
  let withSentinel := '\n' :: content
  let section_indicators := pyFindAllCount pat_section_header withSentinel
  let list_indicators := pyFindAllCount pat_list_item withSentinel
  let total_sections := section_indicators + list_indicators / 3
  if content.length ≥ 1000 ∧ total_sections ≥ 3 then strL "high"
  else if content.length ≥ 500 ∧ total_sections ≥ 2 then strL "medium"
  else strL "low"

/-- Instruction-text filter of llm_extract_summary: note colon, or fill
then out, or delete then instruction. -/
def pat_note_filter : Matcher :=
  mAlt [mLitCI (strL "note:"),
    mSeqs [mLitCI (strL "fill"), mStarCls dotCh, mLitCI (strL "out")],
    mSeqs [mLitCI (strL "delete"), mStarCls dotCh, mLitCI (strL "instruction")]]

/-- Executive-summary pattern of llm_extract_summary: exec with optional
utive, whitespace, summary, colon-or-space run, a lazy dotall capture, a
lookahead on the next section header. -/
def pat_exec_summary : Matcher :=
  mSeqs [mLitCI (strL "exec"), mOpt (mLitCI (strL "utive")),
    mPlusCls isWsPy, mLitCI (strL "summary"), mStarCls colonWs,
    mCap (mPlusClsLazy anyCh),
    mLook (mAlt [mLitCI (strL "impact"), mLitCI (strL "timeline"),
      mSeqs [mLitCI (strL "root"), mPlusCls isWsPy, mLitCI (strL "cause")],
      mSeqs [mLitCI (strL "customer"), mPlusCls isWsPy, mLitCI (strL "impact")]])]

/-- Client-facing-summary pattern of llm_extract_summary. -/
def pat_client_summary : Matcher :=
  mSeqs [mLitCI (strL "client"), mPlusCls isWsPy, mLitCI (strL "facing"),
    mPlusCls isWsPy, mLitCI (strL "summary"), mStarCls colonWs,
    mOpt (mSeqs [mLit (strL "("), mStarCls (fun c => c ≠ ')'), mLit (strL ")")]),
    mStarCls isWsPy, mStarCls colonWs,
    mCap (mPlusClsLazy anyCh),
    mLook (mAlt [mLitCI (strL "exec"), mLitCI (strL "impact"),
      mLitCI (strL "timeline")])]

/-- The sentence filter of llm_extract_summary applied to a captured
summary block: split into sentences, collapse whitespace, keep sentences
that are long enough, not instruction text and not parenthesised. -/
def meaningful_sentences (summary_text : Str) : List Str :=
  ((split_runs (fun c => c = '.' ∨ c = '!' ∨ c = '?') summary_text).map
      (fun sentence => collapse_ws (py_strip sentence))).filter
    (fun cleaned => cleaned.length > 20 ∧ ¬ pySearchB pat_note_filter cleaned ∧
      ¬ starts_with_char '(' cleaned)

/-- Join the first sentences of a summary block and close with a period, as
llm_extract_summary formats its result. -/
def format_summary_result (ms : List Str) : Str :=
  let result := join_sep (strL ". ") (ms.take 2)
  if ends_with_char '.' result then result else result ++ strL "."

/-- The incident keywords of the fallback branch of llm_extract_summary. -/
def incident_keywords : List Str :=
  [strL "outage", strL "down", strL "failed", strL "maintenance",
   strL "issue", strL "error", strL "unavailable"]

/-- Secondary instruction-text filter of the fallback branch. -/
def pat_note_filter2 : Matcher :=
  mAlt [mLitCI (strL "note:"), mLitCI (strL "instruction"),
    mSeqs [mLitCI (strL "fill"), mStarCls dotCh, mLitCI (strL "out")]]

/-- The fallback sentence loop of llm_extract_summary: the first sentence
that is long enough, mentions an incident keyword and is not instruction
text. -/
def summary_fallback_loop : List Str → Option Str
  | [] => none
  | sentence :: rest =>
    if (py_strip sentence).length > 30 ∧
        incident_keywords.any (fun k => is_sub k (lower_str sentence)) then
      let cleaned := collapse_ws (py_strip sentence)
      if ¬ pySearchB pat_note_filter2 cleaned then some (cleaned ++ strL ".")
      else summary_fallback_loop rest
    else summary_fallback_loop rest

/-- The method llm_extract_summary. -/
def llm_extract_summary (content ticket_key : Str) : Str :=
  let try1 :=
    match pySearch pat_exec_summary content with
    | some (_, some g1 :: _) =>
      match meaningful_sentences (py_strip g1) with
      | [] => none
      | ms => some (format_summary_result ms)
    | _ => none
  match try1 with
  | some r => r
  | none =>
  let try2 :=
    match pySearch pat_client_summary content with
    | some (_, some g1 :: _) =>
      match meaningful_sentences (py_strip g1) with
      | [] => none
      | ms => some (format_summary_result ms)
    | _ => none
  match try2 with
  | some r => r
  | none =>
  match summary_fallback_loop
      (split_runs (fun c => c = '.' ∨ c = '!' ∨ c = '?') content) with
  | some r => r
  | none =>
    strL "Incident " ++ ticket_key ++
      strL " occurred with system impact requiring investigation and resolution."

/-- Customer-impact section pattern of llm_extract_user_impact. -/
def pat_customer_impact_section : Matcher :=
  mSeqs [mLitCI (strL "customer"), mPlusCls isWsPy, mLitCI (strL "impact"),
    mStarCls colonWs, mCap (mPlusClsLazy anyCh),
    mLook (mAlt [mLitCI (strL "source"), mLitCI (strL "security"),
      mSeqs [mLitCI (strL "business"), mPlusCls isWsPy, mLitCI (strL "impact")],
      mLitCI (strL "timeline")])]

/-- The letters-and-whitespace class of the user-type group. -/
def alphaWs (c : Char) : Bool := isAlphaPy c ∨ isWsPy c

/-- A comma-grouped number capture. -/
def mNumCap : Matcher :=
  mCap (mSeq (mPlusCls isDigitPy)
    (mStarG (mSeq (mLit (strL ",")) (mPlusCls isDigitPy))))

/-- The user-noun alternation with optional onboarding prefix and the
user-type capture, shared tail of the first two user patterns. -/
def mUserTypeCap : Matcher :=
  mCap (mSeqs [mStarCls alphaWs,
    mOpt (mSeq (mLitCI (strL "onboarding")) (mPlusCls isWsPy)),
    mAlt [mWordOptS "member", mWordOptS "user", mWordOptS "customer"]])

/-- User pattern 1 of llm_extract_user_impact. -/
def pat_user1 : Matcher :=
  mSeqs [mNumCap, mPlusCls isWsPy, mUserTypeCap]

/-- User pattern 2 of llm_extract_user_impact: predicted or estimated
impact of a number of users. -/
def pat_user2 : Matcher :=
  mSeqs [mAlt [mLitCI (strL "predicted"), mLitCI (strL "estimated")],
    mPlusCls isWsPy, mLitCI (strL "impact"), mPlusCls isWsPy,
    mLitCI (strL "of"), mPlusCls isWsPy, mNumCap, mPlusCls isWsPy,
    mUserTypeCap]

/-- User pattern 3 of llm_extract_user_impact: a number, a free user-type
group, affected or impacted. -/
def pat_user3 : Matcher :=
  mSeqs [mNumCap, mPlusCls isWsPy, mCap (mPlusCls alphaWs), mPlusCls isWsPy,
    mAlt [mLitCI (strL "affected"), mLitCI (strL "impacted")]]

/-- Collect the formatted number-and-type strings of the finditer runs of
the three user patterns over the impact section. -/
def user_impact_details (impact_text : Str) : List Str :=
  ([pat_user1, pat_user2, pat_user3].flatMap
    (fun p => pyFindIter p impact_text)).filterMap
    (fun m =>
      match m.2 with
      | some number :: some user_type :: _ =>
        let ut := py_strip user_type
        if ut.isEmpty then none else some (number ++ strL " " ++ ut)
      | _ => none)

/-- Timeline-section pattern of llm_extract_user_impact: the word timeline,
a lazy gap, a capture starting with an ISO date and containing PST, a
lookahead on the next section. -/
def pat_timeline_section : Matcher :=
  mSeqs [mLitCI (strL "timeline"), mStarClsLazy anyCh,
    mCap (mSeqs [mRepCls isDigitPy 4, mLit (strL "-"), mRepCls isDigitPy 2,
      mLit (strL "-"), mRepCls isDigitPy 2, mStarClsLazy anyCh,
      mLitCI (strL "pst"), mStarClsLazy anyCh]),
    mLook (mAlt [mSeqs [mLitCI (strL "root"), mPlusCls isWsPy, mLitCI (strL "cause")],
      mSeqs [mLitCI (strL "5"), mPlusCls isWsPy, mLitCI (strL "whys")],
      mLitCI (strL "architectural")])]

/-- Timestamp pattern of the timeline duration extraction: an ISO date, a
clock time and the literal PST, case sensitive, captured whole. -/
def pat_pst_time : Matcher :=
  mCap (mSeqs [mRepCls isDigitPy 4, mLit (strL "-"), mRepCls isDigitPy 2,
    mLit (strL "-"), mRepCls isDigitPy 2, mPlusCls isWsPy,
    mRep12 isDigitPy, mLit (strL ":"), mRepCls isDigitPy 2,
    mPlusCls isWsPy, mLit (strL "PST")])

/-- Endpoint-outage pattern of llm_extract_user_impact. -/
def pat_endpoints_down : Matcher :=
  mSeqs [mLitCI (strL "endpoint"), mOpt (mLitCI (strL "s")), mStarCls dotCh,
    mAlt [mLitCI (strL "down"), mLitCI (strL "unavailable"),
      mLitCI (strL "failed")]]

/-- Onboarding-outage pattern of llm_extract_user_impact. -/
def pat_onboarding_down : Matcher :=
  mSeqs [mLitCI (strL "onboarding"), mStarCls dotCh,
    mAlt [mLitCI (strL "down"), mLitCI (strL "unavailable"),
      mLitCI (strL "failed")]]

/-- Order-preserving removal of exact duplicates, the unique-details
loop. -/
def dedup_preserve (l : List Str) : List Str :=
  l.foldl (fun acc d => if acc.contains d then acc else acc ++ [d]) []

/-- The method llm_extract_user_impact. -/
def llm_extract_user_impact (content : Str) : Str :=
  let details1 :=
    match pySearch pat_customer_impact_section content with
    | some (_, some g1 :: _) => user_impact_details (py_strip g1)
    | _ => []
  let details2 :=
    match pySearch pat_timeline_section content with
    | some (_, some timeline_text :: _) =>
      let times := (pyFindIter pat_pst_time timeline_text).filterMap
        (fun m => match m.2 with | some t :: _ => some t | _ => none)
      if times.length ≥ 2 then
        match times with
        | t0 :: _ => [strL "Duration: From " ++ t0 ++ strL " to incident resolution"]
        | [] => []
      else []
    | _ => []
  let details3 :=
    if pySearchB pat_endpoints_down content then
      [strL "Services: Production endpoints affected"] else []
  let details4 :=
    if pySearchB pat_onboarding_down content then
      [strL "Services: Onboarding services impacted"] else []
  let impact_details := details1 ++ details2 ++ details3 ++ details4
  match impact_details with
  | [] => strL "User impact details not clearly specified in RCA document"
  | _ => join_sep (strL "; ") (dedup_preserve impact_details)

/-- Root-cause section pattern 1 of llm_extract_root_causes. -/
def pat_rc_analysis : Matcher :=
  mSeqs [mLitCI (strL "root"), mPlusCls isWsPy, mLitCI (strL "cause"),
    mPlusCls isWsPy, mLitCI (strL "analysis"),
    mCap (mPlusClsLazy anyCh),
    mLook (mAlt [mSeqs [mLitCI (strL "lessons"), mPlusCls isWsPy, mLitCI (strL "learned")],
      mSeqs [mLitCI (strL "action"), mPlusCls isWsPy, mLitCI (strL "items")],
      mSeqs [mLitCI (strL "post"), mPlusCls isWsPy, mLitCI (strL "mortem")]])]

/-- Root-cause section pattern 2: immediate cause. -/
def pat_rc_immediate : Matcher :=
  mSeqs [mLitCI (strL "immediate"), mPlusCls isWsPy, mLitCI (strL "cause"),
    mStarCls colonWs, mCap (mPlusClsLazy anyCh),
    mLook (mAlt [mLitCI (strL "contributing"), mLitCI (strL "underlying"),
      mLitCI (strL "lessons")])]

/-- Root-cause section pattern 3: underlying causes. -/
def pat_rc_underlying : Matcher :=
  mSeqs [mLitCI (strL "underlying"), mPlusCls isWsPy, mLitCI (strL "cause"),
    mOpt (mLitCI (strL "s")), mStarCls colonWs, mCap (mPlusClsLazy anyCh),
    mLook (mAlt [mLitCI (strL "lessons"), mLitCI (strL "action"),
      mLitCI (strL "technical")])]

/-- Executive-summary pattern of the causal-reasoning branch. -/
def pat_exec_for_causes : Matcher :=
  mSeqs [mLitCI (strL "exec"), mOpt (mLitCI (strL "utive")),
    mPlusCls isWsPy, mLitCI (strL "summary"), mStarCls colonWs,
    mCap (mPlusClsLazy anyCh),
    mLook (mAlt [mLitCI (strL "impact"), mLitCI (strL "timeline")])]

/-- Bulleted list-item pattern of parse_causal_text (multiline); the caller
prepends a newline sentinel for the start-or-newline group. -/
def pat_bullet_item : Matcher :=
  mSeqs [mLit (strL "\n"), mStarCls isWsPy,
    mCls (fun c => c = '•' ∨ c = '-' ∨ c = '*'), mStarCls isWsPy,
    mCap (mPlusClsLazy dotCh),
    mLook (mAlt [mLit (strL "\n"), mEnd])]

/-- Numbered list-item pattern of parse_causal_text. -/
def pat_number_item : Matcher :=
  mSeqs [mLit (strL "\n"), mStarCls isWsPy, mPlusCls isDigitPy,
    mCls (fun c => c = '.' ∨ c = ')'), mStarCls isWsPy,
    mCap (mPlusClsLazy dotCh),
    mLook (mAlt [mLit (strL "\n"), mEnd])]

/-- The captured items of a multiline findall over the sentinel-prefixed
text. -/
def list_items (p : Matcher) (text : Str) : List Str :=
  (pyFindIter p ('\n' :: text)).filterMap
    (fun m => match m.2 with | some g :: _ => some g | _ => none)

/-- The method parse_causal_text: bulleted items first, then numbered
items, then sentence fragments of moderate length, at most three. -/
def parse_causal_text (text : Str) : List Str :=
  match list_items pat_bullet_item text with
  | m1 :: ms1 =>
    ((m1 :: ms1).map (fun m => collapse_ws (py_strip m))).filter
      (fun cleaned => cleaned.length > 15)
  | [] =>
  match list_items pat_number_item text with
  | m2 :: ms2 =>
    ((m2 :: ms2).map (fun m => collapse_ws (py_strip m))).filter
      (fun cleaned => cleaned.length > 15)
  | [] =>
    (((split_every dotSemi text).map (fun s => collapse_ws (py_strip s))).filter
      (fun cleaned => 15 < cleaned.length ∧ cleaned.length < 150)).take 3

/-- A causal-phrase pattern of extract_causal_relationships: the causal
connective, then a lazy capture up to a period, a semicolon or the end of
the text. -/
def mCausal (connective : Matcher) : Matcher :=
  mSeqs [connective, mCap (mPlusClsLazy dotCh),
    mLook (mAlt [mCls dotSemi, mEndPy])]

/-- The five causal patterns of extract_causal_relationships, in order. -/
def causal_patterns : List Matcher :=
  [mCausal (mSeqs [mLitCI (strL "due"), mPlusCls isWsPy, mLitCI (strL "to"),
     mPlusCls isWsPy]),
   mCausal (mSeqs [mLitCI (strL "because"), mPlusCls isWsPy,
     mOpt (mSeq (mLitCI (strL "of")) (mPlusCls isWsPy))]),
   mCausal (mSeqs [mLitCI (strL "caused"), mPlusCls isWsPy, mLitCI (strL "by"),
     mPlusCls isWsPy]),
   mCausal (mSeqs [mLitCI (strL "as"), mPlusCls isWsPy, mLitCI (strL "a"),
     mPlusCls isWsPy, mLitCI (strL "result"), mPlusCls isWsPy,
     mLitCI (strL "of"), mPlusCls isWsPy]),
   mCausal (mSeqs [mLitCI (strL "resulted"), mPlusCls isWsPy,
     mLitCI (strL "in"), mPlusCls isWsPy])]

/-- The method extract_causal_relationships. -/
def extract_causal_relationships (text : Str) : List Str :=
  (causal_patterns.flatMap (fun p =>
    (pyFindIter p text).filterMap
      (fun m => match m.2 with | some g :: _ => some g | _ => none))).filterMap
    (fun m =>
      let cleaned := collapse_ws (py_rstrip_char ',' (py_strip m))
      if 10 < cleaned.length ∧ cleaned.length < 100 then some cleaned else none)

/-- The six technical-indicator patterns of llm_extract_root_causes with
their canned descriptions. -/
def technical_indicator_list : List (Matcher × Str) :=
  [(mSeqs [mLitCI (strL "f5"), mStarCls dotCh,
      mAlt [mLitCI (strL "maintenance"),
        mSeqs [mLitCI (strL "emergency"), mStarCls dotCh, mLitCI (strL "maintenance")],
        mLitCI (strL "outage")]],
    strL "Third-party WAF provider emergency maintenance"),
   (mSeqs [mOpt (mSeq (mLitCI (strL "regional")) (mPlusCls isWsPy)),
      mLitCI (strL "pop"), mOpt (mLitCI (strL "s")), mStarCls dotCh,
      mAlt [mLitCI (strL "down"), mLitCI (strL "failed"), mLitCI (strL "outage")]],
    strL "WAF regional point-of-presence failures"),
   (mSeqs [mLitCI (strL "database"), mStarCls dotCh,
      mAlt [mLitCI (strL "connection"), mLitCI (strL "timeout"), mLitCI (strL "failed")]],
    strL "Database connectivity issues"),
   (mSeqs [mLitCI (strL "deployment"), mStarCls dotCh,
      mAlt [mLitCI (strL "failed"), mLitCI (strL "error")]],
    strL "Deployment failure"),
   (mSeqs [mLitCI (strL "configuration"), mStarCls dotCh,
      mAlt [mLitCI (strL "error"), mLitCI (strL "wrong"), mLitCI (strL "incorrect")]],
    strL "Configuration error"),
   (mSeqs [mLitCI (strL "vendor"), mStarCls dotCh,
      mAlt [mLitCI (strL "notification"), mLitCI (strL "communication")]],
    strL "Inadequate vendor communication")]

/-- Anchored header-strip pattern 1 of the cleanup loop: an upper-case
letter, a run of lower-case letters and whitespace, a colon, at the start
only. -/
def pat_header1 : Matcher :=
  mSeqs [mCls (fun c => 'A' ≤ c ∧ c ≤ 'Z'),
    mPlusCls (fun c => ('a' ≤ c ∧ c ≤ 'z') ∨ isWsPy c), mLit (strL ":")]

/-- Anchored header-strip pattern 2 of the cleanup loop: one of four fixed
section headers followed by a colon-or-space run, at the start only. -/
def pat_header2 : Matcher :=
  mSeqs [mAlt [mLit (strL "Major Problems"), mLit (strL "Immediate Cause"),
      mLit (strL "Contributing Factors"), mLit (strL "Technical Infrastructure")],
    mStarCls colonWs]

/-- The substitution re.sub of an anchored pattern by the empty string:
drop the matched span at the start, if any. -/
def sub_anchor (p : Matcher) (s : Str) : Str :=
  match pyMatchAt p s with
  | some (g0, _, _) => s.drop g0.length
  | none => s

/-- The cleanup fold of llm_extract_root_causes: collapse whitespace, strip
the two kinds of leading section headers, drop short entries, deduplicate
case-blind. -/
def unique_causes_loop (causes : List Str) : List Str :=
  causes.foldl
    (fun unique cause =>
      let c1 := collapse_ws (py_strip cause)
      let c2 := py_strip (sub_anchor pat_header1 c1)
      let c3 := py_strip (sub_anchor pat_header2 c2)
      if ¬ c3.isEmpty ∧ c3.length > 10 ∧
          ¬ (unique.map lower_str).contains (lower_str c3) then
        unique ++ [c3]
      else unique)
    []

/-- The method llm_extract_root_causes. -/
def llm_extract_root_causes (content : Str) : List Str :=
  let from_sections :=
    ([pat_rc_analysis, pat_rc_immediate, pat_rc_underlying].map
      (fun p => pySearch p content)).flatMap
      (fun r =>
        match r with
        | some (_, some g1 :: _) => parse_causal_text (py_strip g1)
        | _ => [])
  let causes0 :=
    match from_sections with
    | [] =>
      match pySearch pat_exec_for_causes content with
      | some (_, some g1 :: _) => extract_causal_relationships (py_strip g1)
      | _ => []
    | cs => cs
  let causes := technical_indicator_list.foldl
    (fun acc pd =>
      if pySearchB pd.1 content ∧ ¬ acc.contains pd.2 then acc ++ [pd.2]
      else acc)
    causes0
  match unique_causes_loop causes with
  | [] => [strL "Root cause analysis pending or not clearly documented"]
  | u => u.take 5

/-- The method simulate_sequential_analysis: the three llm-styled
extractors (the temporary-file bookkeeping of the source succeeds and has
no effect on the result). -/
def simulate_sequential_analysis (content ticket_key : Str) :
    Str × Str × List Str :=
  (llm_extract_summary content ticket_key,
   llm_extract_user_impact content,
   llm_extract_root_causes content)

/-- The method validate_analysis_result (the dict carries no content key,
so the recorded raw length is the length of the empty default). -/
def validate_analysis_result (r : Str × Str × List Str) (quality_score : Str) :
    RCAAnalysis :=
  let incident_summary := py_strip r.1
  let incident_summary :=
    if incident_summary.isEmpty ∨ incident_summary.length < 20 then
      strL "Incident summary not available or insufficient detail in RCA document"
    else incident_summary
  let users_impacted := py_strip r.2.1
  let users_impacted :=
    if users_impacted.isEmpty then strL "User impact details not specified"
    else users_impacted
  let root_causes := r.2.2
  let root_causes :=
    if root_causes.isEmpty then [strL "Root cause analysis pending or not documented"]
    else root_causes
  { incident_summary := incident_summary,
    users_impacted := users_impacted,
    root_causes := root_causes,
    analysis_quality := quality_score,
    raw_content_length := 0,
    error_message := none }

/-- The method analyze_rca_document: the hundred-character gate on the raw
content length, then the llm-styled extraction path. -/
def analyze_rca_document (content ticket_key : Str) : RCAAnalysis :=
  let quality_score := assess_content_quality content
  if content.length < 100 then
    { incident_summary := strL "Content too short for analysis",
      users_impacted := strL "Unable to determine",
      root_causes := [strL "Content insufficient"],
      analysis_quality := strL "low",
      raw_content_length := content.length,
      error_message := some (strL "Content too short") }
  else
    validate_analysis_result (simulate_sequential_analysis content ticket_key)
      quality_score

end Rca

/-!
The file main.py: the per-incident body of analyze_rca_content.

The loop body enriches one incident dict; the embedding models it as a
function of the document reference (the rca_link value, absent or a
string), the retrieved-and-cleaned document content (absent when the
external document store fails to return content) and the incident metadata.
The record keeps the analysis fields that the claims name; the remaining
purely informational string fields (quality feedback, strengths, gaps,
justification, analysis quality) are set in the same pattern and are not
referenced by any claim.
-/

namespace Main

/-- The analysis fields of the per-incident record. -/
structure IncidentFields where
  rca_summary : Str
  users_impacted : Str
  root_causes : Str
  rca_quality_score : Nat
  rca_grade : Str
  business_impact_score : Nat
  customer_count_affected : Str
  revenue_impact_est : Str
  service_downtime_minutes : Nat
  root_cause_category : Str
  detection_time_minutes : Nat
  resolution_time_minutes : Nat
  technical_debt_level : Str
  automation_score : Nat
deriving DecidableEq

/-- The defaults installed at the top of the loop body. -/
def default_fields : IncidentFields :=
  { rca_summary := strL "RCA document not available",
    users_impacted := strL "Not specified",
    root_causes := strL "Not analyzed",
    rca_quality_score := 0,
    rca_grade := strL "N/A",
    business_impact_score := 1,
    customer_count_affected := strL "Not specified",
    revenue_impact_est := strL "Unable to estimate",
    service_downtime_minutes := 0,
    root_cause_category := strL "Unknown",
    detection_time_minutes := 0,
    resolution_time_minutes := 0,
    technical_debt_level := strL "Unknown",
    automation_score := 0 }

/-- One iteration of analyze_rca_content: rca_link is the document
reference (none models a missing key, and both the empty string and the
Not Found marker are rejected by the falsiness test of the source);
retrieved is the cleaned content of the document when the external document
store resolves the reference. -/
def process_incident (rca_link : Option Str) (retrieved : Option Str)
    (ticket_key urgency summary pods created : Str) : IncidentFields :=
  match rca_link with
  | none => default_fields
  | some url =>
    if url.isEmpty ∨ url = strL "Not Found" then default_fields
    else
      match retrieved with
      | none => { default_fields with rca_summary := strL "Failed to retrieve RCA content" }
      | some cleaned =>
        if (py_strip cleaned).length < 50 then
          { default_fields with
            rca_summary := strL "RCA content insufficient for analysis" }
        else
          let a := Rca.analyze_rca_document cleaned ticket_key
          let q := Quality.analyze_rca_quality cleaned ticket_key
          let b := Business.analyze_business_impact cleaned ticket_key urgency summary pods
          let t := Technical.analyze_technical_aspects cleaned ticket_key created
          { rca_summary := a.incident_summary,
            users_impacted := a.users_impacted,
            root_causes := join_sep (strL "; ") a.root_causes,
            rca_quality_score := q.total_score,
            rca_grade := Quality.grade_value q.grade,
            business_impact_score := b.impact_score,
            customer_count_affected := b.customer_count_affected,
            revenue_impact_est := b.revenue_impact_est,
            service_downtime_minutes := b.service_downtime_minutes,
            root_cause_category := t.root_cause_category,
            detection_time_minutes := t.detection_time_minutes,
            resolution_time_minutes := t.resolution_time_minutes,
            technical_debt_level := t.technical_debt_level,
            automation_score := t.automation_score }

end Main

/-!
Specification-side definitions: restatements, in the wording of the
specification, of behaviours that the claims describe; each is compared
with the corresponding definition embedded from the source.
-/

/-- The claim wording of the per-category score: the sum over the keywords
of the occurrence counts, each capped at three. -/
def spec_category_score (content_lower : Str) (cat : Technical.RootCauseCategory) : Nat :=
  (Technical.cause_patterns cat).foldl
    (fun score kw => score + min (count_sub kw content_lower) 3) 0

/-- Maximal second component over a score list. -/
def max_snd : List (Technical.RootCauseCategory × Nat) → Nat
  | [] => 0
  | p :: l => max p.2 (max_snd l)

/-- The first category of a score list whose score equals the given value,
in enumeration order. -/
def first_max (m : Nat) : List (Technical.RootCauseCategory × Nat) →
    Option Technical.RootCauseCategory
  | [] => none
  | p :: l => if p.2 = m then some p.1 else first_max m l

/-- The claim wording of the classifier: the category with the strictly
highest total, ties broken by the first maximal category in enumeration
order, and the unknown category exactly when every score is zero. -/
def spec_classify_root_cause (content : Str) : Technical.RootCauseCategory :=
  let cl := lower_str content
  let scores := Technical.category_list.map (fun c => (c, spec_category_score cl c))
  let m := max_snd scores
  if m = 0 then .UNKNOWN
  else
    match first_max m scores with
    | some c => c
    | none => .UNKNOWN

/-- The amended claim wording of the structured-methodology contribution:
eight points when the five-whys phrase is present or the word why occurs at
least three times; otherwise four points when any methodology keyword
(why, fishbone, fault tree, contributing factor) is present; otherwise
nothing. -/
def spec_methodology_points (cl : Str) : Nat :=
  if is_sub (strL "5 whys") cl ∨ 3 ≤ count_sub (strL "why") cl then 8
  else if is_sub (strL "why") cl ∨ is_sub (strL "fishbone") cl ∨
      is_sub (strL "fault tree") cl ∨ is_sub (strL "contributing factor") cl then 4
  else 0

/-- Rank of a grade, for the monotonicity statement: a higher grade has a
higher rank. -/
def grade_rank : Quality.QualityGrade → Nat
  | .A => 4
  | .B => 3
  | .C => 2
  | .D => 1
  | .F => 0

/-!
Helper lemmas.
-/

/-- The two folds of the per-category score agree on every keyword list:
skipping an absent keyword is the same as adding its zero capped count. -/
lemma fold_score_eq (cl : Str) (kws : List Str) : ∀ (a : Nat),
    kws.foldl (fun score kw =>
      let occurrences := count_sub kw cl
      if occurrences > 0 then score + min occurrences 3 else score) a =
    kws.foldl (fun score kw => score + min (count_sub kw cl) 3) a := by
  induction kws with
  | nil => intro a; rfl
  | cons kw kws ih =>
    intro a
    have hstep : (let occurrences := count_sub kw cl
        if occurrences > 0 then a + min occurrences 3 else a) =
        a + min (count_sub kw cl) 3 := by
      by_cases h : count_sub kw cl > 0
      · simp [h]
      · have h0 : count_sub kw cl = 0 := by omega
        simp [h, h0]
    simp only [List.foldl_cons, hstep, ih]

/-- The per-category score of the source equals the claim wording. -/
lemma category_score_eq_spec (cl : Str) (cat : Technical.RootCauseCategory) :
    Technical.category_score cl cat = spec_category_score cl cat :=
  fold_score_eq cl (Technical.cause_patterns cat) 0

/-- The built-in max with a key keeps the first maximal item: the fold of
py_max_by_snd attains the maximal score, and the first list entry whose
score is maximal is exactly the category that the fold returns. -/
lemma py_max_spec (xs : List (Technical.RootCauseCategory × Nat)) :
    ∀ x, (Technical.py_max_by_snd x xs).2 = max_snd (x :: xs) ∧
      first_max (max_snd (x :: xs)) (x :: xs) =
        some (Technical.py_max_by_snd x xs).1 := by
  induction xs with
  | nil =>
    intro x
    refine ⟨?_, ?_⟩
    · show x.2 = max x.2 (max_snd [])
      simp [max_snd]
    · show first_max (max_snd [x]) [x] = some x.1
      simp [first_max, max_snd]
  | cons y ys ih =>
    intro x
    have hpm : Technical.py_max_by_snd x (y :: ys) =
        Technical.py_max_by_snd (if y.2 > x.2 then y else x) ys := rfl
    have hms : max_snd (x :: y :: ys) =
        max_snd ((if y.2 > x.2 then y else x) :: ys) := by
      by_cases h : y.2 > x.2 <;> simp [max_snd, h] <;> omega
    obtain ⟨ih1, ih2⟩ := ih (if y.2 > x.2 then y else x)
    refine ⟨by rw [hpm, ih1, ← hms], ?_⟩
    rw [hpm, hms]
    have hfm : first_max (max_snd ((if y.2 > x.2 then y else x) :: ys)) (x :: y :: ys) =
        first_max (max_snd ((if y.2 > x.2 then y else x) :: ys))
          ((if y.2 > x.2 then y else x) :: ys) := by
      by_cases hyx : y.2 > x.2
      · rw [if_pos hyx]
        have hx : ¬ x.2 = max_snd (y :: ys) := by
          simp only [max_snd]; omega
        show (if x.2 = max_snd (y :: ys) then some x.1
          else first_max (max_snd (y :: ys)) (y :: ys)) =
          first_max (max_snd (y :: ys)) (y :: ys)
        rw [if_neg hx]
      · rw [if_neg hyx]
        show (if x.2 = max_snd (x :: ys) then some x.1
          else if y.2 = max_snd (x :: ys) then some y.1
          else first_max (max_snd (x :: ys)) ys) =
          (if x.2 = max_snd (x :: ys) then some x.1
          else first_max (max_snd (x :: ys)) ys)
        by_cases hx : x.2 = max_snd (x :: ys)
        · rw [if_pos hx, if_pos hx]
        · have hy : ¬ y.2 = max_snd (x :: ys) := by
            simp only [max_snd] at hx ⊢; omega
          rw [if_neg hx, if_neg hy, if_neg hx]
    rw [hfm]
    exact ih2

/-- The bridge between the fold of the source classifier and the claim
wording on a non-empty score list. -/
lemma classify_bridge (x : Technical.RootCauseCategory × Nat)
    (xs : List (Technical.RootCauseCategory × Nat)) :
    (if (Technical.py_max_by_snd x xs).2 > 0 then (Technical.py_max_by_snd x xs).1
      else .UNKNOWN) =
    (if max_snd (x :: xs) = 0 then Technical.RootCauseCategory.UNKNOWN
      else match first_max (max_snd (x :: xs)) (x :: xs) with
        | some c => c
        | none => .UNKNOWN) := by
  obtain ⟨h1, h2⟩ := py_max_spec xs x
  rw [h2, h1]
  by_cases hm : max_snd (x :: xs) = 0
  · simp [hm]
  · have : max_snd (x :: xs) > 0 := Nat.pos_of_ne_zero hm
    simp [hm, this]

/-- A positive scan count implies the needle occurs in the text. -/
lemma is_sub_of_count_aux_pos (kw : Str) : ∀ (f : Nat) (s : Str),
    0 < count_sub_aux kw f s → is_sub kw s = true := by
  intro f
  induction f with
  | zero => intro s h; simp [count_sub_aux] at h
  | succ f ih =>
    intro s h
    cases s with
    | nil => simp [count_sub_aux] at h
    | cons c t =>
      by_cases hp : kw.isPrefixOf (c :: t) ∧ 0 < kw.length
      · simp [is_sub, hp.1]
      · rw [count_sub_aux, if_neg hp] at h
        simp [is_sub, ih t h]

/-- An absent needle has scan count zero. -/
lemma count_sub_eq_zero_of_not_sub (kw s : Str) (h : is_sub kw s = false) :
    count_sub kw s = 0 := by
  by_contra hne
  have := is_sub_of_count_aux_pos kw s.length s (Nat.pos_of_ne_zero hne)
  rw [h] at this
  exact Bool.false_ne_true this

/-- The substring test agrees with the infix relation. -/
lemma is_sub_infix_iff (kw s : Str) : is_sub kw s = true ↔ kw <:+: s := by
  induction s with
  | nil =>
    simp [is_sub, List.isEmpty_iff, List.infix_nil]
  | cons c t ih =>
    simp only [is_sub, Bool.or_eq_true, List.isPrefixOf_iff_prefix, ih,
      List.infix_cons_iff]

/-- A text containing the five-whys phrase contains the word why. -/
lemma is_sub_why_of_5whys (cl : Str) (h : is_sub (strL "5 whys") cl = true) :
    is_sub (strL "why") cl = true := by
  rw [is_sub_infix_iff] at h ⊢
  exact List.IsInfix.trans (by decide) h

/-- The impact-score formula is always between two and ten: the base point
plus a priority contribution of at least one, before the cap at ten. -/
lemma calc_score_bounds (priority customer_count : Str) (downtime : Nat)
    (content summary : Str) :
    2 ≤ Business.calculate_impact_score priority customer_count downtime content summary ∧
    Business.calculate_impact_score priority customer_count downtime content summary ≤ 10 := by
  unfold Business.calculate_impact_score
  dsimp only
  split_ifs <;> omega

/-!
Concrete inputs used by counterexamples and witnesses.
-/

/-- The scenario text of the business-impact claim: the three required
phrases and nothing else that matches earlier. -/
def text_c3 : Str :=
  strL "1,200 users were affected. outage lasted 45 minutes. payment failed"

/-- A text with a root-cause section and a single occurrence of the word
why, but no five-whys phrase and none of the other methodology keywords. -/
def text_c2 : Str := strL "root cause: why"

/-- A document reference string for the record-assembly claims. -/
def url_c7 : Str := strL "u"

/-- A cleaned content whose stripped length is under fifty characters. -/
def short_c7 : Str := strL "too short"

/-- A cleaned content of sixty letters padded with sixty trailing spaces:
its stripped length is sixty, its raw length is one hundred twenty. -/
def text_c9pad : Str :=
  strL "aaaaaaaaaaaaaaaaaaaaaaaaaaaaaaaaaaaaaaaaaaaaaaaaaaaaaaaaaaaa                                                            "

/-- A cleaned content of sixty letters with no padding. -/
def text_c9w : Str :=
  strL "incident review content for the padded gate example aaaaaaaa"

/-!
Claim theorems.
-/

/-- C1: for every input text, the quality assessment returned by
analyze_rca_quality has a total score equal to the sum of the score fields
of its dimension list, and every dimension score lies in the interval from
zero to the maximum of that dimension (the lower bound holds because scores are
natural numbers); the same holds for the degraded fallback assessment of
the except branch. -/
theorem c1_quality_score_invariants : ∀ content ticket_key error_message,
    ((Quality.analyze_rca_quality content ticket_key).total_score =
      (((Quality.analyze_rca_quality content ticket_key).dimensions).map
        (fun d => d.score)).sum ∧
     ((Quality.analyze_rca_quality content ticket_key).dimensions).all
        (fun d => decide (d.score ≤ d.max_points)) = true) ∧
    ((Quality.create_fallback_assessment ticket_key error_message).total_score =
      (((Quality.create_fallback_assessment ticket_key error_message).dimensions).map
        (fun d => d.score)).sum ∧
     ((Quality.create_fallback_assessment ticket_key error_message).dimensions).all
        (fun d => decide (d.score ≤ d.max_points)) = true) := by
  intro content ticket_key error_message
  refine ⟨⟨rfl, ?_⟩, ⟨rfl, rfl⟩⟩
  simp only [Quality.analyze_rca_quality, Quality.quality_dimensions,
    List.all_cons, List.all_nil, Bool.and_eq_true, decide_eq_true_eq]
  exact ⟨Nat.min_le_right _ _, Nat.min_le_right _ _, Nat.min_le_right _ _,
    Nat.min_le_right _ _, Nat.min_le_right _ _, Nat.min_le_right _ _,
    Nat.min_le_right _ _, trivial⟩

/-- C2 counterexample: on a text with a detected root-cause section, a
single occurrence of why, no five-whys phrase and none of fishbone, fault
tree or contributing factor, the methodology contribution is four, not the
zero that the claim requires in this case. -/
theorem c2_counterexample :
    Quality.has_rca_section text_c2 = true ∧
    is_sub (strL "5 whys") (lower_str text_c2) = false ∧
    count_sub (strL "why") (lower_str text_c2) < 3 ∧
    is_sub (strL "fishbone") (lower_str text_c2) = false ∧
    is_sub (strL "fault tree") (lower_str text_c2) = false ∧
    is_sub (strL "contributing factor") (lower_str text_c2) = false ∧
    Quality.methodology_points (lower_str text_c2) = 4 := by
  refine ⟨by decide, by decide, by decide, by decide, by decide, by decide, by decide⟩

/-- C2 amended: in the root-cause-analysis dimension, for every text in
which a root-cause section is detected, the structured-methodology
contribution is eight exactly when the text contains the five-whys phrase
or at least three occurrences of why; otherwise it is four exactly when the
text contains any of why, fishbone, fault tree or contributing factor; and
it is zero in all other cases. -/
theorem c2_methodology_contribution : ∀ content,
    Quality.has_rca_section content = true →
    Quality.methodology_points (lower_str content) =
      spec_methodology_points (lower_str content) := by
  intro content _h
  set cl := lower_str content with hcl
  have hne_w : ¬ (strL "why" = strL "5 whys") := by decide
  have hne_f : ¬ (strL "fishbone" = strL "5 whys") := by decide
  have hne_t : ¬ (strL "fault tree" = strL "5 whys") := by decide
  have hne_c : ¬ (strL "contributing factor" = strL "5 whys") := by decide
  simp only [Quality.methodology_points, Quality.methodologies,
    Quality.methodology_loop, spec_methodology_points]
  by_cases h5 : is_sub (strL "5 whys") cl = true
  · simp [h5]
  · simp only [h5, if_false, Bool.not_eq_true] at *
    by_cases hw : is_sub (strL "why") cl = true
    · by_cases hc : 3 ≤ count_sub (strL "why") cl
      · simp [h5, hw, hc, hne_w]
      · simp [h5, hw, hc, hne_w]
    · have hc0 : count_sub (strL "why") cl = 0 :=
        count_sub_eq_zero_of_not_sub _ _ (by simpa using hw)
      by_cases hf : is_sub (strL "fishbone") cl = true
      · simp [h5, hw, hf, hc0, hne_f]
      · by_cases ht : is_sub (strL "fault tree") cl = true
        · simp [h5, hw, hf, ht, hc0, hne_t]
        · by_cases hcf : is_sub (strL "contributing factor") cl = true
          · simp [h5, hw, hf, ht, hcf, hc0, hne_c]
          · simp [h5, hw, hf, ht, hcf, hc0]

/-- C2 witness: the amended statement evaluated on the counterexample
text, whose root-cause section is detected. -/
theorem c2_methodology_contribution_witness :
    Quality.has_rca_section text_c2 = true ∧
    Quality.methodology_points (lower_str text_c2) =
      spec_methodology_points (lower_str text_c2) :=
  ⟨by decide, c2_methodology_contribution text_c2 (by decide)⟩

/-- C3 counterexample: the scenario text contains the three required
phrases and is analyzed with priority P1, yet the impact score is below
nine: the customer phrase contains neither a percent sign nor the words
thousand or k users, so the customer term contributes nothing and the
score is seven. -/
theorem c3_counterexample :
    is_sub (strL "1,200 users were affected") text_c3 = true ∧
    is_sub (strL "outage lasted 45 minutes") text_c3 = true ∧
    is_sub (strL "payment") text_c3 = true ∧
    ¬ 9 ≤ (Business.analyze_business_impact text_c3 (strL "IR-1") (strL "P1")
        [] []).impact_score := by
  refine ⟨by decide, by decide, by decide, by decide⟩

/-- C3 amended: on the scenario text containing the phrases about 1,200
affected users, a 45-minute outage and the payment keyword, analyzed with
priority P1, the analyzer returns the customer phrase 1,200 users, a
downtime of 45 minutes, the high revenue bucket, and an impact score of
exactly seven. -/
theorem c3_scenario_outputs :
    (Business.analyze_business_impact text_c3 (strL "IR-1") (strL "P1")
        [] []).customer_count_affected = strL "1,200 users" ∧
    (Business.analyze_business_impact text_c3 (strL "IR-1") (strL "P1")
        [] []).service_downtime_minutes = 45 ∧
    (Business.analyze_business_impact text_c3 (strL "IR-1") (strL "P1")
        [] []).revenue_impact_est = strL "High: $50K+ potential revenue impact" ∧
    (Business.analyze_business_impact text_c3 (strL "IR-1") (strL "P1")
        [] []).impact_score = 7 := by
  refine ⟨by decide, by decide, by decide, by decide⟩

/-- C4: for every combination of content, summary, priority and
team-engagement strings, including empty strings and unrecognized
priorities, the impact score of analyze_business_impact lies in the
interval from one to ten, and the exception-fallback result carries the
impact score one. -/
theorem c4_impact_score_bounds : ∀ content ticket_key priority summary pods error_message,
    1 ≤ (Business.analyze_business_impact content ticket_key priority summary
        pods).impact_score ∧
    (Business.analyze_business_impact content ticket_key priority summary
        pods).impact_score ≤ 10 ∧
    (Business.create_fallback_analysis ticket_key error_message).impact_score = 1 := by
  intro content ticket_key priority summary pods error_message
  have h := calc_score_bounds priority
    (Business.extract_customer_impact content summary)
    (Business.extract_downtime content) content summary
  exact ⟨Nat.le_trans (by omega) h.1, h.2, rfl⟩

/-- C5: the root-cause classifier computes each category score as the sum
of the per-keyword occurrence counts capped at three, picks the strictly
highest total with ties broken by the first maximal category in the fixed
enumeration order, and returns the unknown category exactly when every
score is zero: the embedded classifier equals the classifier written in
those words. -/
theorem c5_classifier_matches_spec : ∀ content,
    Technical.classify_root_cause content = spec_classify_root_cause content := by
  intro content
  unfold Technical.classify_root_cause spec_classify_root_cause
  simp only [category_score_eq_spec]
  simp only [Technical.category_list, List.map_cons, List.map_nil]
  exact classify_bridge _ _

/-- C6: the letter grade is a pure, monotonically non-decreasing function
of the total score with inclusive lower bounds: the totals 95, 85, 75, 65
and 10 map to A, B, C, D and F, and the boundary totals 90, 80, 70 and 60
map to A, B, C and D. -/
theorem c6_grade_monotone_boundaries :
    (∀ s t, s ≤ t →
      grade_rank (Quality.calculate_grade s) ≤ grade_rank (Quality.calculate_grade t)) ∧
    Quality.calculate_grade 95 = .A ∧ Quality.calculate_grade 85 = .B ∧
    Quality.calculate_grade 75 = .C ∧ Quality.calculate_grade 65 = .D ∧
    Quality.calculate_grade 10 = .F ∧ Quality.calculate_grade 90 = .A ∧
    Quality.calculate_grade 80 = .B ∧ Quality.calculate_grade 70 = .C ∧
    Quality.calculate_grade 60 = .D := by
  refine ⟨?_, by decide, by decide, by decide, by decide, by decide,
    by decide, by decide, by decide, by decide⟩
  intro s t h
  unfold Quality.calculate_grade
  split_ifs <;> simp [grade_rank] <;> omega

/-- C6 witness: the monotonicity conjunct applied at the totals 10 and
95. -/
theorem c6_grade_monotone_boundaries_witness :
    grade_rank (Quality.calculate_grade 10) ≤ grade_rank (Quality.calculate_grade 95) :=
  c6_grade_monotone_boundaries.1 10 95 (by omega)

/-- C7 counterexample: an incident with a resolved document reference
whose cleaned content strips to fewer than fifty characters carries the
summary about insufficient content, not the default summary about the
document being unavailable that the claim requires. -/
theorem c7_counterexample :
    (py_strip short_c7).length < 50 ∧
    (Main.process_incident (some url_c7) (some short_c7) (strL "IR-1")
        (strL "P1") [] [] []).rca_summary ≠ strL "RCA document not available" := by
  refine ⟨by decide, by decide⟩

/-- C7 amended: when the document reference is absent, empty or the
not-found marker, the record carries exactly the documented defaults; when
the reference resolves but the cleaned content strips to fewer than fifty
characters, the record carries exactly the documented defaults except that
the summary is the insufficient-content sentinel. -/
theorem c7_default_record_fields :
    (∀ retrieved ticket_key urgency summary pods created,
      Main.process_incident none retrieved ticket_key urgency summary pods created =
        Main.default_fields) ∧
    (∀ url retrieved ticket_key urgency summary pods created,
      (url.isEmpty = true ∨ url = strL "Not Found") →
      Main.process_incident (some url) retrieved ticket_key urgency summary pods created =
        Main.default_fields) ∧
    (∀ url cleaned ticket_key urgency summary pods created,
      ¬ (url.isEmpty = true ∨ url = strL "Not Found") →
      (py_strip cleaned).length < 50 →
      Main.process_incident (some url) (some cleaned) ticket_key urgency summary pods created =
        { Main.default_fields with
          rca_summary := strL "RCA content insufficient for analysis" }) := by
  refine ⟨fun _ _ _ _ _ _ => rfl, ?_, ?_⟩
  · intro url retrieved ticket_key urgency summary pods created h
    show (if url.isEmpty = true ∨ url = strL "Not Found" then Main.default_fields
      else _) = Main.default_fields
    rw [if_pos h]
  · intro url cleaned ticket_key urgency summary pods created h1 h2
    show (if url.isEmpty = true ∨ url = strL "Not Found" then Main.default_fields
      else if (py_strip cleaned).length < 50 then
        { Main.default_fields with
          rca_summary := strL "RCA content insufficient for analysis" }
      else _) = _
    rw [if_neg h1, if_pos h2]

/-- C7 witness: the amended statement evaluated on an absent reference and
on a short cleaned content. -/
theorem c7_default_record_fields_witness :
    Main.process_incident none none [] [] [] [] [] = Main.default_fields ∧
    Main.process_incident (some url_c7) (some short_c7) [] [] [] [] [] =
      { Main.default_fields with
        rca_summary := strL "RCA content insufficient for analysis" } :=
  ⟨c7_default_record_fields.1 none [] [] [] [] [],
   c7_default_record_fields.2.2 url_c7 short_c7 [] [] [] [] []
     (by decide) (by decide)⟩

/-- C8: on the exception-free path the impact score is always at least two,
because the base point and the priority contribution of at least one are
added before the cap; the score one arises only as the exception-fallback
result. -/
theorem c8_score_one_only_from_fallback : ∀ content ticket_key priority summary pods
    error_message,
    2 ≤ (Business.analyze_business_impact content ticket_key priority summary
        pods).impact_score ∧
    (Business.create_fallback_analysis ticket_key error_message).impact_score = 1 := by
  intro content ticket_key priority summary pods error_message
  exact ⟨(calc_score_bounds priority
    (Business.extract_customer_impact content summary)
    (Business.extract_downtime content) content summary).1, rfl⟩

set_option maxRecDepth 8000 in
/-- C9 counterexample: a cleaned content whose stripped length is sixty,
inside the interval that the claim quantifies over, but whose raw length is
one hundred twenty: the pipeline gate passes it, yet the analyzer does not
return the short-content result, because its own threshold tests the raw
length. -/
theorem c9_counterexample :
    50 ≤ (py_strip text_c9pad).length ∧
    (py_strip text_c9pad).length < 100 ∧
    (Rca.analyze_rca_document text_c9pad (strL "IR-1")).incident_summary ≠
      strL "Content too short for analysis" := by
  refine ⟨by decide, by decide, by decide⟩

/-- C9 amended: for every cleaned content whose stripped length is at least
fifty and whose raw length is under one hundred, the insufficiency gate
passes the content on, and analyze_rca_document returns the short-content
result; through the pipeline the record then carries the short-content
sentinels in its summary, impact and cause fields. -/
theorem c9_short_content_analyzer_result : ∀ content ticket_key,
    50 ≤ (py_strip content).length → content.length < 100 →
    (¬ (py_strip content).length < 50) ∧
    Rca.analyze_rca_document content ticket_key =
      { incident_summary := strL "Content too short for analysis",
        users_impacted := strL "Unable to determine",
        root_causes := [strL "Content insufficient"],
        analysis_quality := strL "low",
        raw_content_length := content.length,
        error_message := some (strL "Content too short") } ∧
    (∀ url urgency summary pods created,
      ¬ (url.isEmpty = true ∨ url = strL "Not Found") →
      (Main.process_incident (some url) (some content) ticket_key urgency summary
          pods created).rca_summary = strL "Content too short for analysis" ∧
      (Main.process_incident (some url) (some content) ticket_key urgency summary
          pods created).users_impacted = strL "Unable to determine" ∧
      (Main.process_incident (some url) (some content) ticket_key urgency summary
          pods created).root_causes = strL "Content insufficient") := by
  intro content ticket_key h1 h2
  have hdoc : Rca.analyze_rca_document content ticket_key =
      { incident_summary := strL "Content too short for analysis",
        users_impacted := strL "Unable to determine",
        root_causes := [strL "Content insufficient"],
        analysis_quality := strL "low",
        raw_content_length := content.length,
        error_message := some (strL "Content too short") } := by
    unfold Rca.analyze_rca_document
    rw [if_pos h2]
  refine ⟨by omega, hdoc, ?_⟩
  intro url urgency summary pods created hurl
  have hred : Main.process_incident (some url) (some content) ticket_key urgency
      summary pods created =
      { rca_summary := (Rca.analyze_rca_document content ticket_key).incident_summary,
        users_impacted := (Rca.analyze_rca_document content ticket_key).users_impacted,
        root_causes := join_sep (strL "; ")
          (Rca.analyze_rca_document content ticket_key).root_causes,
        rca_quality_score := (Quality.analyze_rca_quality content ticket_key).total_score,
        rca_grade := Quality.grade_value
          (Quality.analyze_rca_quality content ticket_key).grade,
        business_impact_score := (Business.analyze_business_impact content ticket_key
          urgency summary pods).impact_score,
        customer_count_affected := (Business.analyze_business_impact content ticket_key
          urgency summary pods).customer_count_affected,
        revenue_impact_est := (Business.analyze_business_impact content ticket_key
          urgency summary pods).revenue_impact_est,
        service_downtime_minutes := (Business.analyze_business_impact content ticket_key
          urgency summary pods).service_downtime_minutes,
        root_cause_category := (Technical.analyze_technical_aspects content ticket_key
          created).root_cause_category,
        detection_time_minutes := (Technical.analyze_technical_aspects content ticket_key
          created).detection_time_minutes,
        resolution_time_minutes := (Technical.analyze_technical_aspects content ticket_key
          created).resolution_time_minutes,
        technical_debt_level := (Technical.analyze_technical_aspects content ticket_key
          created).technical_debt_level,
        automation_score := (Technical.analyze_technical_aspects content ticket_key
          created).automation_score } := by
    show (if url.isEmpty = true ∨ url = strL "Not Found" then Main.default_fields
      else if (py_strip content).length < 50 then
        { Main.default_fields with
          rca_summary := strL "RCA content insufficient for analysis" }
      else _) = _
    rw [if_neg hurl, if_neg (by omega)]
  rw [hred, hdoc]
  exact ⟨rfl, rfl, rfl⟩

/-- C9 witness: the amended statement evaluated on a sixty-character
content with no padding. -/
theorem c9_short_content_analyzer_result_witness :
    (¬ (py_strip text_c9w).length < 50) ∧
    (Rca.analyze_rca_document text_c9w (strL "IR-1")).incident_summary =
      strL "Content too short for analysis" := by
  have h := c9_short_content_analyzer_result text_c9w (strL "IR-1")
    (by decide) (by decide)
  exact ⟨h.1, by rw [h.2.1]⟩

/-- C10: for every priority other than P1, P2 and P3, including Not Set
and the empty string, the revenue-impact bucket of the analyzer is the
minimal bucket, regardless of the document text, the summary and the
extracted downtime. -/
theorem c10_unrecognized_priority_minimal_bucket : ∀ content ticket_key priority
    summary pods,
    priority ≠ strL "P1" → priority ≠ strL "P2" → priority ≠ strL "P3" →
    (Business.analyze_business_impact content ticket_key priority summary
        pods).revenue_impact_est = strL "Minimal: <$500 potential impact" := by
  intro content ticket_key priority summary pods h1 h2 h3
  show Business.estimate_revenue_impact content summary priority
    (Business.extract_downtime content) = _
  unfold Business.estimate_revenue_impact
  rw [if_neg h1, if_neg h2, if_neg h3]

/-- C10 witness: the statement evaluated at the priority value Not Set. -/
theorem c10_unrecognized_priority_minimal_bucket_witness :
    (Business.analyze_business_impact [] [] (strL "Not Set") [] []).revenue_impact_est =
      strL "Minimal: <$500 potential impact" :=
  c10_unrecognized_priority_minimal_bucket [] [] (strL "Not Set") [] []
    (by decide) (by decide) (by decide)

end IrAnalysis
